import Mathlib

/-!
# Verification development for the ReactBitsGridDistortion component

A shallow embedding, in Lean 4, of the numeric core of
`src/components/ReactBitsGridDistortion.tsx`: the GLSL distortion
algorithms of the fragment shader, the adaptive-quality controller, the
pointer tracker, the performance-history window, the context-loss
state preservation/restoration helpers, the texture-failure fallback
path, and the CSS color parser.

Conventions of the embedding:

* JavaScript / GLSL numbers are modelled as rationals (`ℚ`) where the
  source only performs field arithmetic and comparisons, and as reals
  (`ℝ`) where transcendental functions (`sin`, `exp`, `pow`, `sqrt`)
  occur.
* IEEE NaN production is modelled by the structure `GLFloat`: a real
  value paired with a `Prop` that records whether any operation with an
  undefined / NaN result (division by zero, `normalize` of the zero
  vector, `pow` outside its domain) was performed while computing the
  value.  Every arithmetic operation propagates the flag, which is how
  NaN behaves under IEEE arithmetic.
* JavaScript `NaN` results of `parseInt` are modelled with `Option`.
* Stateful React callbacks (`setState(prev => ...)`) are modelled as
  pure state-transition functions on the corresponding state records.
-/

/-! ## GLSL value model with NaN tracking -/

/-- A GLSL `float`: the ideal real value together with a proposition
recording whether the computation that produced it performed an
operation whose GLSL/IEEE result is undefined (NaN). -/
structure GLFloat where
  val : ℝ
  nan : Prop

namespace Glsl

/-- Lift a real constant (or a well-defined uniform/varying input). -/
noncomputable def c (r : ℝ) : GLFloat := ⟨r, False⟩

noncomputable def add (a b : GLFloat) : GLFloat := ⟨a.val + b.val, a.nan ∨ b.nan⟩

noncomputable def sub (a b : GLFloat) : GLFloat := ⟨a.val - b.val, a.nan ∨ b.nan⟩

noncomputable def mul (a b : GLFloat) : GLFloat := ⟨a.val * b.val, a.nan ∨ b.nan⟩

/-- GLSL division: undefined (NaN/Inf) when the divisor is zero. -/
noncomputable def div (a b : GLFloat) : GLFloat :=
  ⟨a.val / b.val, a.nan ∨ b.nan ∨ b.val = 0⟩

noncomputable def neg (a : GLFloat) : GLFloat := ⟨-a.val, a.nan⟩

noncomputable def sinG (a : GLFloat) : GLFloat := ⟨Real.sin a.val, a.nan⟩

noncomputable def cosG (a : GLFloat) : GLFloat := ⟨Real.cos a.val, a.nan⟩

noncomputable def expG (a : GLFloat) : GLFloat := ⟨Real.exp a.val, a.nan⟩

/-- GLSL `sqrt`: undefined for negative input. -/
noncomputable def sqrtG (a : GLFloat) : GLFloat := ⟨Real.sqrt a.val, a.nan ∨ a.val < 0⟩

noncomputable def floorG (a : GLFloat) : GLFloat := ⟨⌊a.val⌋, a.nan⟩

/-- GLSL `fract(x) = x - floor(x)`. -/
noncomputable def fractG (a : GLFloat) : GLFloat := ⟨a.val - ⌊a.val⌋, a.nan⟩

noncomputable def minG (a b : GLFloat) : GLFloat := ⟨min a.val b.val, a.nan ∨ b.nan⟩

noncomputable def maxG (a b : GLFloat) : GLFloat := ⟨max a.val b.val, a.nan ∨ b.nan⟩

/-- GLSL `clamp(x, lo, hi) = min(max(x, lo), hi)`. -/
noncomputable def clampG (x lo hi : GLFloat) : GLFloat := minG (maxG x lo) hi

/-- GLSL `mix(a, b, t) = a * (1 - t) + b * t`. -/
noncomputable def mixG (a b t : GLFloat) : GLFloat :=
  add (mul a (sub (c 1) t)) (mul b t)

/-- GLSL `pow(x, y) = exp2(y * log2 x)`: undefined for `x < 0`, and for
`x = 0` with `y ≤ 0`.  Modelled by the real power `Real.rpow`. -/
noncomputable def powG (a b : GLFloat) : GLFloat :=
  ⟨a.val ^ b.val, a.nan ∨ b.nan ∨ a.val < 0 ∨ (a.val = 0 ∧ b.val ≤ 0)⟩

/-- The real-valued body of GLSL `smoothstep`. -/
noncomputable def smoothstepVal (e0 e1 x : ℝ) : ℝ :=
  let t := min (max ((x - e0) / (e1 - e0)) 0) 1
  t * t * (3 - 2 * t)

/-- GLSL `smoothstep(e0, e1, x)`; its Hermite interpolant divides by
`e1 - e0`, so the result is undefined when `e0 = e1`. -/
noncomputable def smoothstepG (e0 e1 x : GLFloat) : GLFloat :=
  ⟨smoothstepVal e0.val e1.val x.val, e0.nan ∨ e1.nan ∨ x.nan ∨ e1.val - e0.val = 0⟩

/-- A GLSL `vec2`. -/
structure Vec2 where
  x : GLFloat
  y : GLFloat

noncomputable def v2 (a b : ℝ) : Vec2 := ⟨c a, c b⟩

noncomputable def add2 (a b : Vec2) : Vec2 := ⟨add a.x b.x, add a.y b.y⟩

noncomputable def sub2 (a b : Vec2) : Vec2 := ⟨sub a.x b.x, sub a.y b.y⟩

noncomputable def smul2 (a : Vec2) (s : GLFloat) : Vec2 := ⟨mul a.x s, mul a.y s⟩

noncomputable def dot2 (a b : Vec2) : GLFloat :=
  add (mul a.x b.x) (mul a.y b.y)

/-- GLSL `length(v) = sqrt(dot(v, v))`. -/
noncomputable def length2 (a : Vec2) : GLFloat := sqrtG (dot2 a a)

/-- GLSL `distance(a, b) = length(a - b)`. -/
noncomputable def distance2 (a b : Vec2) : GLFloat := length2 (sub2 a b)

/-- GLSL `normalize(v) = v / length(v)`: undefined (NaN) on the zero
vector, whose length is zero. -/
noncomputable def normalize2 (a : Vec2) : Vec2 :=
  ⟨div a.x (length2 a), div a.y (length2 a)⟩

end Glsl

/-! ## Uniform parameters of the fragment shader -/

/-- The uniforms consumed by the four distortion functions, with the
component's documented defaults as a reference instance below. -/
structure Uniforms where
  intensity : ℝ
  radius : ℝ
  falloff : ℝ
  interactionRadius : ℝ
  interactionFalloff : ℝ
  velocityInfluence : ℝ
  velocityX : ℝ
  velocityY : ℝ
  magneticStrength : ℝ
  magneticPolarity : ℝ
  rippleFrequency : ℝ
  rippleAmplitude : ℝ
  rippleDecay : ℝ
  vortexStrength : ℝ
  vortexTightness : ℝ
  autoAnimation : Bool
  animationSpeed : ℝ

/-- The component's default parameter values (`defaultProps`). -/
noncomputable def defaultUniforms : Uniforms :=
  { intensity := 1/2
    radius := 3/10
    falloff := 4/5
    interactionRadius := 3/10
    interactionFalloff := 4/5
    velocityInfluence := 1/2
    velocityX := 0
    velocityY := 0
    magneticStrength := 1
    magneticPolarity := 1
    rippleFrequency := 10
    rippleAmplitude := 1/2
    rippleDecay := 2
    vortexStrength := 2
    vortexTightness := 1
    autoAnimation := false
    animationSpeed := 1 }

/-! ## The four distortion algorithms of the fragment shader -/

namespace Shader

open Glsl

/-- Componentwise vector sum with a scalar (GLSL `vec2 + float`). -/
noncomputable def adds2 (a : Vec2) (s : GLFloat) : Vec2 := ⟨add a.x s, add a.y s⟩

/-- Componentwise (Hadamard) product of two `vec2`s. -/
noncomputable def mul2 (a b : Vec2) : Vec2 := ⟨mul a.x b.x, mul a.y b.y⟩

/-- Scalar minus vector, componentwise (GLSL `float - vec2`). -/
noncomputable def ssub2 (s : GLFloat) (a : Vec2) : Vec2 := ⟨sub s a.x, sub s a.y⟩

/-- Componentwise `floor`. -/
noncomputable def floor2 (a : Vec2) : Vec2 := ⟨floorG a.x, floorG a.y⟩

/-- Componentwise `fract`. -/
noncomputable def fract2 (a : Vec2) : Vec2 := ⟨fractG a.x, fractG a.y⟩

/-- `noise`: hash-style value noise
`fract(sin(dot(p, vec2(12.9898, 78.233))) * 43758.5453)`. -/
noncomputable def noise (p : Vec2) : GLFloat :=
  fractG (mul (sinG (dot2 p (v2 12.9898 78.233))) (c 43758.5453))

/-- `smoothNoise`: bilinear Hermite interpolation of `noise` at the four
surrounding lattice points. -/
noncomputable def smoothNoise (p : Vec2) : GLFloat :=
  let i := floor2 p
  let f := fract2 p
  let na := noise i
  let nb := noise (add2 i (v2 1.0 0.0))
  let nc := noise (add2 i (v2 0.0 1.0))
  let nd := noise (add2 i (v2 1.0 1.0))
  let u := mul2 (mul2 f f) (ssub2 (c 3.0) (smul2 f (c 2.0)))
  add (add (mixG na nb u.x)
        (mul (mul (sub nc na) u.y) (sub (c 1.0) u.x)))
    (mul (mul (sub nd nb) u.x) u.y)

/-- `fbm`: four octaves of `smoothNoise`, amplitude halving and
frequency doubling each octave. -/
noncomputable def fbm (p : Vec2) : GLFloat :=
  let step := fun (s : GLFloat × GLFloat × GLFloat) (_ : ℕ) =>
    (add s.1 (mul s.2.1 (smoothNoise (smul2 p s.2.2))), mul s.2.1 (c 0.5),
      mul s.2.2 (c 2.0))
  ((List.range 4).foldl step (c 0.0, c 0.5, c 1.0)).1

/-- `fluidDistortion(uv, mouse, time)` — transcribed line by line from
the fragment shader (multi-octave noise advected by time, radial and
noise displacement scaled by the intensity fall-off, velocity and
oscillatory terms, optional auto-animation breathing/wobble). -/
noncomputable def fluidDistortion (U : Uniforms) (uv mouse : Vec2) (time : ℝ) : Vec2 :=
  let t := c time
  let dist := distance2 uv mouse
  let interactionFalloff :=
    powG (sub (c 1.0) (smoothstepG (c 0.0) (c U.interactionRadius) dist))
      (c U.interactionFalloff)
  let intensityFalloff :=
    powG (sub (c 1.0) (smoothstepG (c 0.0) (c U.radius) dist)) (c U.falloff)
  let noisePos := adds2 (smul2 uv (c 8.0)) (mul t (c 0.5))
  let noiseX := sub (fbm noisePos) (c 0.5)
  let noiseY := sub (fbm (add2 noisePos (v2 100.0 100.0))) (c 0.5)
  let secondaryNoisePos := adds2 (smul2 uv (c 16.0)) (mul t (c 0.3))
  let secondaryNoiseX := sub (smoothNoise secondaryNoisePos) (c 0.5)
  let secondaryNoiseY := sub (smoothNoise (add2 secondaryNoisePos (v2 50.0 50.0))) (c 0.5)
  let noiseX := mixG noiseX secondaryNoiseX (c 0.3)
  let noiseY := mixG noiseY secondaryNoiseY (c 0.3)
  let direction := normalize2 (sub2 uv mouse)
  let radialDisplacement := smul2 direction (mul (mul intensityFalloff (c U.intensity)) (c 0.1))
  let noiseDisplacement :=
    smul2 ⟨noiseX, noiseY⟩ (mul (mul intensityFalloff (c U.intensity)) (c 0.05))
  let velocityDisplacement :=
    smul2 (v2 U.velocityX U.velocityY)
      (mul (mul interactionFalloff (c U.velocityInfluence)) (c 0.01))
  let timeOffset := mul (sinG (add (mul t (c 2.0)) (mul dist (c 10.0)))) (c 0.02)
  let timeDisplacement := smul2 direction (mul (mul timeOffset intensityFalloff) (c U.intensity))
  if U.autoAnimation then
    let breathingPhase := mul (mul t (c U.animationSpeed)) (c 0.8)
    let breathing :=
      add (add (mul (sinG breathingPhase) (c 0.3))
            (mul (sinG (mul breathingPhase (c 1.7))) (c 0.2)))
        (mul (sinG (mul breathingPhase (c 2.3))) (c 0.1))
    let wobbleOffset : Vec2 :=
      ⟨add (mul (sinG (add (mul (mul t (c U.animationSpeed)) (c 1.2)) (mul uv.x (c 3.0)))) (c 0.015))
          (mul (sinG (add (mul (mul t (c U.animationSpeed)) (c 0.7)) (mul uv.x (c 5.0)))) (c 0.008)),
        add (mul (cosG (add (mul (mul t (c U.animationSpeed)) (c 0.9)) (mul uv.y (c 2.5)))) (c 0.012))
          (mul (cosG (add (mul (mul t (c U.animationSpeed)) (c 1.3)) (mul uv.y (c 4.0)))) (c 0.006))⟩
    let autoAnimDisplacement := smul2 wobbleOffset (mul (mul breathing (c U.intensity)) (c 0.5))
    add2 (add2 (add2 (add2 (add2 uv radialDisplacement) noiseDisplacement)
          velocityDisplacement) timeDisplacement) autoAnimDisplacement
  else
    add2 (add2 (add2 (add2 uv radialDisplacement) noiseDisplacement)
      velocityDisplacement) timeDisplacement

/-- `magneticDistortion(uv, mouse, time)` — exponential fall-off with
inverse-square-like force; the distance is clamped to `0.001` but the
direction is still `normalize(uv - mouse)`. -/
noncomputable def magneticDistortion (U : Uniforms) (uv mouse : Vec2) (time : ℝ) : Vec2 :=
  let t := c time
  let dist := distance2 uv mouse
  let dist := maxG dist (c 0.001)
  let magneticFalloff := powG (expG (neg (div dist (c U.radius)))) (c U.falloff)
  let interactionFalloff :=
    powG (sub (c 1.0) (smoothstepG (c 0.0) (c U.interactionRadius) dist))
      (c U.interactionFalloff)
  let direction := smul2 (normalize2 (sub2 uv mouse)) (c U.magneticPolarity)
  let magneticForce :=
    div (mul (c U.magneticStrength) magneticFalloff)
      (add (mul dist dist) (c 0.01))
  let magneticForce := mul magneticForce (c U.intensity)
  let magneticDisplacement := smul2 direction (mul magneticForce (c 0.1))
  let velocityDisplacement :=
    smul2 (v2 U.velocityX U.velocityY)
      (mul (mul interactionFalloff (c U.velocityInfluence)) (c 0.01))
  let timeVariation := mul (sinG (add (mul t (c 1.5)) (mul dist (c 8.0)))) (c 0.01)
  let timeDisplacement := smul2 direction (mul (mul timeVariation magneticFalloff) (c U.intensity))
  if U.autoAnimation then
    let pulsePhase := mul (mul t (c U.animationSpeed)) (c 1.5)
    let pulse := add (mul (sinG pulsePhase) (c 0.4)) (mul (sinG (mul pulsePhase (c 2.3))) (c 0.2))
    let pulseDisplacement :=
      smul2 direction (mul (mul (mul pulse magneticFalloff) (c U.intensity)) (c 0.3))
    add2 (add2 (add2 (add2 uv magneticDisplacement) velocityDisplacement)
      timeDisplacement) pulseDisplacement
  else
    add2 (add2 (add2 uv magneticDisplacement) velocityDisplacement) timeDisplacement

/-- `rippleDistortion(uv, mouse, time)` — radial sine wave with
exponential decay plus a perpendicular secondary wave. -/
noncomputable def rippleDistortion (U : Uniforms) (uv mouse : Vec2) (time : ℝ) : Vec2 :=
  let t := c time
  let dist := distance2 uv mouse
  let interactionFalloff :=
    powG (sub (c 1.0) (smoothstepG (c 0.0) (c U.interactionRadius) dist))
      (c U.interactionFalloff)
  let rippleFalloff :=
    powG (sub (c 1.0) (smoothstepG (c 0.0) (c U.radius) dist)) (c U.falloff)
  let wavePhase := sub (mul dist (c U.rippleFrequency)) (mul t (c 3.0))
  let waveValue := mul (sinG wavePhase) (c U.rippleAmplitude)
  let decayFactor := expG (neg (mul dist (c U.rippleDecay)))
  let waveValue := mul waveValue (mul (mul decayFactor rippleFalloff) (c U.intensity))
  let direction := normalize2 (sub2 uv mouse)
  let rippleDisplacement := smul2 direction (mul waveValue (c 0.1))
  let velocityDisplacement :=
    smul2 (v2 U.velocityX U.velocityY)
      (mul (mul interactionFalloff (c U.velocityInfluence)) (c 0.01))
  let secondaryPhase := sub (mul (mul dist (c U.rippleFrequency)) (c 0.7)) (mul t (c 2.0))
  let secondaryWave := mul (mul (sinG secondaryPhase) (c U.rippleAmplitude)) (c 0.3)
  let secondaryWave := mul secondaryWave (mul (mul decayFactor rippleFalloff) (c U.intensity))
  let perpDirection : Vec2 := ⟨neg direction.y, direction.x⟩
  let secondaryDisplacement := smul2 perpDirection (mul secondaryWave (c 0.05))
  if U.autoAnimation then
    let autoRipple1 :=
      mul (sinG (sub (mul (mul t (c U.animationSpeed)) (c 2.0)) (mul dist (c 15.0)))) (c 0.02)
    let autoRipple2 :=
      mul (sinG (sub (mul (mul t (c U.animationSpeed)) (c 1.3)) (mul dist (c 8.0)))) (c 0.015)
    let autoFalloff := expG (neg (mul dist (c 2.0)))
    let autoRippleDisplacement :=
      smul2 direction (mul (mul (add autoRipple1 autoRipple2) autoFalloff) (c U.intensity))
    add2 (add2 (add2 (add2 uv rippleDisplacement) velocityDisplacement)
      secondaryDisplacement) autoRippleDisplacement
  else
    add2 (add2 (add2 uv rippleDisplacement) velocityDisplacement) secondaryDisplacement

open Classical

/-- `vortexDistortion(uv, mouse, time)` — rotation of the
pointer-to-point vector; the only algorithm with an explicit
zero-distance guard (`if (dist < 0.001) return uv`).  An IEEE `<`
comparison is false when its operand is NaN, so the guard condition is
modelled as `¬nan ∧ val < 0.001`. -/
noncomputable def vortexDistortion (U : Uniforms) (uv mouse : Vec2) (time : ℝ) : Vec2 :=
  let t := c time
  let toCenter := sub2 uv mouse
  let dist := length2 toCenter
  if ¬dist.nan ∧ dist.val < 0.001 then uv
  else
    let interactionFalloff :=
      powG (sub (c 1.0) (smoothstepG (c 0.0) (c U.interactionRadius) dist))
        (c U.interactionFalloff)
    let vortexFalloff :=
      powG (sub (c 1.0) (smoothstepG (c 0.0) (c U.radius) dist)) (c U.falloff)
    let rotationAngle := mul (mul (c U.vortexStrength) vortexFalloff) (c U.intensity)
    let rotationAngle :=
      add rotationAngle
        (mul (mul (mul (mul (c U.vortexTightness) (div (c 1.0) (add dist (c 0.1))))
          vortexFalloff) (c U.intensity)) (c 0.1))
    let rotationAngle := add rotationAngle (mul (mul t (c 0.5)) vortexFalloff)
    let rotationAngle :=
      if U.autoAnimation then
        let autoRotation := mul (mul (mul t (c U.animationSpeed)) (c 1.2)) vortexFalloff
        let rotationAngle := add rotationAngle autoRotation
        let spiralBreathing := mul (sinG (mul (mul t (c U.animationSpeed)) (c 0.8))) (c 0.3)
        add rotationAngle (mul (mul spiralBreathing vortexFalloff) (c U.intensity))
      else rotationAngle
    let cosAngle := cosG rotationAngle
    let sinAngle := sinG rotationAngle
    let rotatedVector : Vec2 :=
      ⟨sub (mul toCenter.x cosAngle) (mul toCenter.y sinAngle),
        add (mul toCenter.x sinAngle) (mul toCenter.y cosAngle)⟩
    let vortexDisplacement := smul2 (sub2 rotatedVector toCenter) (c 0.5)
    let velocityDisplacement :=
      smul2 (v2 U.velocityX U.velocityY)
        (mul (mul interactionFalloff (c U.velocityInfluence)) (c 0.01))
    let radialPull := mul (mul (mul (c U.vortexStrength) (c 0.1)) vortexFalloff) (c U.intensity)
    let radialDisplacement := smul2 (normalize2 toCenter) (mul radialPull (neg (c 0.05)))
    add2 (add2 (add2 uv vortexDisplacement) velocityDisplacement) radialDisplacement

end Shader

/-! ## Fall-off curve (shared by all four algorithms)

Lines 466-467 / 470-471 of the fragment shader: both the interaction
fall-off and the intensity fall-off are
`pow(1.0 - smoothstep(0.0, radius, dist), exponent)`, instantiated with
`(u_interactionRadius, u_interactionFalloff)` and
`(u_radius, u_falloff)` respectively. -/

/-- The common fall-off computation as a `GLFloat` expression. -/
noncomputable def falloffCurve (radius expo d : ℝ) : GLFloat :=
  Glsl.powG (Glsl.sub (Glsl.c 1.0) (Glsl.smoothstepG (Glsl.c 0.0) (Glsl.c radius) (Glsl.c d)))
    (Glsl.c expo)

/-! ## Adaptive quality controller -/

/-- The three quality tiers. -/
inductive Quality
  | low
  | medium
  | high
deriving DecidableEq, Repr

/-- Numeric index of a tier, for measuring transition step size. -/
def Quality.idx : Quality → ℕ
  | .low => 0
  | .medium => 1
  | .high => 2

/-- A quality preset (`qualityPresets` record in the source). -/
structure QualityPreset where
  maxDPR : ℚ
  shaderComplexity : Quality
  textureSize : ℕ
  enableAdvancedGrid : Bool
  enableVelocityEffects : Bool
  targetFrameRate : ℚ

/-- `qualityPresets`: the fixed preset table. -/
def qualityPresets : Quality → QualityPreset
  | .low =>
    { maxDPR := 1, shaderComplexity := .low, textureSize := 512,
      enableAdvancedGrid := false, enableVelocityEffects := false, targetFrameRate := 30 }
  | .medium =>
    { maxDPR := 3/2, shaderComplexity := .medium, textureSize := 1024,
      enableAdvancedGrid := true, enableVelocityEffects := true, targetFrameRate := 45 }
  | .high =>
    { maxDPR := 2, shaderComplexity := .high, textureSize := 2048,
      enableAdvancedGrid := true, enableVelocityEffects := true, targetFrameRate := 60 }

/-- `shouldAdjustQuality`: gate a tier change behind the 3000 ms
cooldown and the 80 % / 110 % threshold band. -/
def shouldAdjustQuality (averageFrameRate targetFrameRate lastQualityChange currentTime : ℚ) :
    Bool :=
  let timeSinceLastChange := currentTime - lastQualityChange
  let minChangeInterval : ℚ := 3000
  if timeSinceLastChange < minChangeInterval then false
  else
    decide (averageFrameRate < targetFrameRate * (8/10)) ||
      decide (averageFrameRate > targetFrameRate * (11/10))

/-- `getOptimalQuality`: pick the tier for the observed average frame
rate. -/
def getOptimalQuality (currentQuality : Quality) (averageFrameRate : ℚ) : Quality :=
  if averageFrameRate < 25 then .low
  else if averageFrameRate < 40 then
    (if currentQuality = .high then .medium else currentQuality)
  else if averageFrameRate > 55 then
    (if currentQuality = .low then .medium
      else if currentQuality = .medium then .high else .high)
  else currentQuality

/-- The quality-adjustment slice of the per-frame performance update
(lines 2590-2603 of the animation loop): the tier and its change
timestamp are only touched when `shouldAdjustQuality` allows it. -/
def qualityAdjustStep (prevQuality : Quality) (prevLastQualityChange : ℚ)
    (averageFrameRate targetFrameRate currentTime : ℚ) : Quality × ℚ :=
  if shouldAdjustQuality averageFrameRate targetFrameRate prevLastQualityChange currentTime then
    let optimalQuality := getOptimalQuality prevQuality averageFrameRate
    if optimalQuality ≠ prevQuality then (optimalQuality, currentTime)
    else (prevQuality, prevLastQualityChange)
  else (prevQuality, prevLastQualityChange)

/-! ## Shader program selection during WebGL initialization

Lines 2172-2188: the primary program is compiled and then validated;
a `false` from `validateShaderProgram` is turned into a thrown error,
which the surrounding `catch` answers by compiling the fallback
shader.  Initialization fails only if the fallback also fails. -/

/-- Which program (if any) initialization ends up with. -/
inductive ProgramChoice
  | primary
  | fallbackProgram
  | initializationFailed
deriving DecidableEq, Repr

/-- Pure model of the try/catch program-selection logic of
`initializeWebGL`, over the outcome of each fallible step. -/
def selectShaderProgram (primaryCompiles validationOk fallbackCompiles : Bool) : ProgramChoice :=
  if primaryCompiles && validationOk then .primary
  else if fallbackCompiles then .fallbackProgram
  else .initializationFailed

/-! ## Pointer tracker -/

/-- A 2-component rational vector (normalized pointer coordinates or a
velocity). -/
structure Vec2Q where
  x : ℚ
  y : ℚ
deriving DecidableEq, Repr

/-- `MouseState` of the source. -/
structure MouseState where
  current : Vec2Q
  target : Vec2Q
  velocity : Vec2Q
  isActive : Bool
  lastMoveTime : ℚ
deriving DecidableEq, Repr

/-- JavaScript `a || b` on an optional number: `undefined` and `0` are
falsy. -/
def jsOrNum (a : Option ℚ) (b : ℚ) : ℚ :=
  match a with
  | none => b
  | some v => if v = 0 then b else v

/-- `handleMouseMove`'s state update (lines 2291-2341): raw normalized
coordinates are clamped to `[0, 1]`; a jump of more than `0.5` on
either axis snaps position and zeroes the velocity; otherwise the
per-event velocity is clamped to `±5000` and blended by an exponential
moving average whose smoothing factor is clamped to `[0.1, 0.95]`. -/
def handleMouseMoveUpdate (mouseSmoothing : Option ℚ) (prev : MouseState)
    (rawX rawY now : ℚ) : MouseState :=
  let x := max 0 (min 1 rawX)
  let y := max 0 (min 1 rawY)
  let dt := max (now - prev.lastMoveTime) 1
  let dx := x - prev.target.x
  let dy := y - prev.target.y
  let maxMovement : ℚ := 1/2
  if |dx| > maxMovement ∨ |dy| > maxMovement then
    { current := ⟨x, y⟩, target := ⟨x, y⟩, velocity := ⟨0, 0⟩,
      isActive := true, lastMoveTime := now }
  else
    let velocitySmoothing := max (1/10) (min (19/20) (jsOrNum mouseSmoothing (4/5)))
    let newVelocityX := dx / dt * 1000
    let newVelocityY := dy / dt * 1000
    let maxVelocity : ℚ := 5000
    let clampedNewVelocityX := max (-maxVelocity) (min maxVelocity newVelocityX)
    let clampedNewVelocityY := max (-maxVelocity) (min maxVelocity newVelocityY)
    let smoothedVelocityX :=
      prev.velocity.x * velocitySmoothing + clampedNewVelocityX * (1 - velocitySmoothing)
    let smoothedVelocityY :=
      prev.velocity.y * velocitySmoothing + clampedNewVelocityY * (1 - velocitySmoothing)
    { current := prev.current, target := ⟨x, y⟩,
      velocity := ⟨smoothedVelocityX, smoothedVelocityY⟩,
      isActive := true, lastMoveTime := now }

/-- `handleTouchMove`'s state update (lines 2401-2426): no coordinate
clamp, no jump guard, no velocity clamp; the smoothing factor is used
as given (`mouseSmoothing || 0.8`). -/
def handleTouchMoveUpdate (mouseSmoothing : Option ℚ) (prev : MouseState)
    (x y now : ℚ) : MouseState :=
  let dt := max (now - prev.lastMoveTime) 1
  let dx := x - prev.target.x
  let dy := y - prev.target.y
  let velocitySmoothing := jsOrNum mouseSmoothing (4/5)
  let newVelocityX := dx / dt * 1000
  let newVelocityY := dy / dt * 1000
  let smoothedVelocityX := prev.velocity.x * velocitySmoothing + newVelocityX * (1 - velocitySmoothing)
  let smoothedVelocityY := prev.velocity.y * velocitySmoothing + newVelocityY * (1 - velocitySmoothing)
  { current := prev.current, target := ⟨x, y⟩,
    velocity := ⟨smoothedVelocityX, smoothedVelocityY⟩,
    isActive := true, lastMoveTime := now }

/-- A whole sequence of mouse-move events `(rawX, rawY, now)` folded
through the tracker. -/
def runMouseMoves (mouseSmoothing : Option ℚ) (s0 : MouseState)
    (events : List (ℚ × ℚ × ℚ)) : MouseState :=
  events.foldl (fun s e => handleMouseMoveUpdate mouseSmoothing s e.1 e.2.1 e.2.2) s0

/-! ## Performance history window -/

/-- `updateFrameRateHistory`: append below the bound; at or above the
bound, shift the first `maxHistorySize - 1` slots left in place and put
the new sample in the last in-bound slot (entries beyond the bound,
which never exist in actual use, would stay untouched). -/
def updateFrameRateHistory (history : List ℚ) (newFrameRate : ℚ)
    (maxHistorySize : ℕ := 60) : List ℚ :=
  if maxHistorySize ≤ history.length then
    ((history.drop 1).take (maxHistorySize - 1)) ++ [newFrameRate] ++ history.drop maxHistorySize
  else
    history ++ [newFrameRate]

/-- `calculateAverageFrameRate`: `60` on an empty history, else the
arithmetic mean. -/
def calculateAverageFrameRate (history : List ℚ) : ℚ :=
  if history.length = 0 then 60 else history.sum / history.length

/-- A sequence of samples pushed through the history window, starting
from the initial empty history. -/
def runFrameRateHistory (samples : List ℚ) : List ℚ :=
  samples.foldl (fun h v => updateFrameRateHistory h v) []

/-! ## Context-loss state preservation and restoration -/

/-- `PerformanceState` of the source. -/
structure PerformanceState where
  frameCount : ℕ
  lastFrameTime : ℚ
  frameRate : ℚ
  averageFrameRate : ℚ
  frameRateHistory : List ℚ
  isPerformanceGood : Bool
  adaptiveQuality : Quality
  lastQualityChange : ℚ
deriving DecidableEq, Repr

/-- `ContextRecoveryState['preservedState']` of the source. -/
structure PreservedState where
  mouseState : Option MouseState
  performanceState : Option PerformanceState
  textureSource : Option String
  dimensions : Option (ℚ × ℚ)
deriving DecidableEq, Repr

/-- `preserveStateForRecovery`: snapshot the mouse state, performance
state, texture source (`textureSource || null` maps both `undefined`
and the empty string to `null`) and canvas dimensions. -/
def preserveStateForRecovery (mouseState : MouseState) (performanceState : PerformanceState)
    (textureSource : Option String) (dimensions : ℚ × ℚ) : PreservedState :=
  { mouseState := some mouseState
    performanceState := some performanceState
    textureSource :=
      match textureSource with
      | none => none
      | some s => if s = "" then none else some s
    dimensions := some dimensions }

/-- `restoreStateAfterRecovery` as a pure function: given the preserved
snapshot, the current clock (`performance.now()`), and the states that
would be left in place when a snapshot field is `null`, produce the
restored `(mouseState, performanceState, dimensions)`. -/
def restoreStateAfterRecovery (preservedState : PreservedState) (now : ℚ)
    (mouse0 : MouseState) (perf0 : PerformanceState) (dims0 : ℚ × ℚ) :
    MouseState × PerformanceState × (ℚ × ℚ) :=
  ( (match preservedState.mouseState with
      | some m => m
      | none => mouse0),
    (match preservedState.performanceState with
      | some p => { p with frameCount := 0, lastFrameTime := now, frameRateHistory := [] }
      | none => perf0),
    (match preservedState.dimensions with
      | some d => d
      | none => dims0) )

/-! ## Texture-failure fallback path -/

/-- JavaScript `String.prototype.includes`: substring search. -/
def jsIncludes (haystack needle : List Char) : Bool :=
  match haystack with
  | [] => needle.isEmpty
  | _ :: rest => needle.isPrefixOf haystack || jsIncludes rest needle

/-- The retry guard of `loadTexture`'s catch block: only messages of
the network/timeout class are retried. -/
def isTransientTextureError (errorMessage : String) : Bool :=
  jsIncludes errorMessage.data ("Failed to load image").data ||
    jsIncludes errorMessage.data ("timeout").data ||
    jsIncludes errorMessage.data ("network").data

/-- Outcome of `loadTexture`'s catch block. -/
structure TextureFailureResult where
  retryScheduled : Bool
  nextRetryCount : ℕ
  hasError : Bool
  placeholderCreated : Bool
  textureWidth : ℕ
  textureHeight : ℕ
deriving DecidableEq, Repr

/-- Pure model of the catch block of `loadTexture` (lines 2036-2089):
retry with backoff while transient and under the 3-retry budget;
otherwise flag the error and, when a live GL context and device
capabilities exist, substitute a checkerboard placeholder of side
`min(qualityPreset.textureSize, maxTextureSize, 512)` and clear the
error flag. -/
def loadTextureOnError (errorMessage : String) (retryCount : ℕ) (glValid : Bool)
    (deviceMaxTextureSize : Option ℕ) (adaptiveQuality : Quality) : TextureFailureResult :=
  if retryCount < 3 ∧ isTransientTextureError errorMessage then
    { retryScheduled := true, nextRetryCount := retryCount + 1, hasError := false,
      placeholderCreated := false, textureWidth := 0, textureHeight := 0 }
  else
    match glValid, deviceMaxTextureSize with
    | true, some maxTextureSize =>
      let qualityPreset := qualityPresets adaptiveQuality
      let optimalSize := min qualityPreset.textureSize (min maxTextureSize 512)
      { retryScheduled := false, nextRetryCount := retryCount, hasError := false,
        placeholderCreated := true, textureWidth := optimalSize, textureHeight := optimalSize }
    | _, _ =>
      { retryScheduled := false, nextRetryCount := retryCount, hasError := true,
        placeholderCreated := false, textureWidth := 0, textureHeight := 0 }

/-- One checkerboard texel of `createPlaceholderTexture`: the RGB value
at pixel `(i, j)` is `64` or `128` by 16-pixel blocks. -/
def placeholderTexel (i j : ℕ) : ℕ :=
  if (i / 16 + j / 16) % 2 = 1 then 64 else 128

/-! ## CSS color parsing (`parseColor`, lines 1116-1177)

JavaScript strings are sequences of UTF-16 code units, and string
`length`, indexing, `slice`, `startsWith`, regular expressions
(without the `u` flag) and property-key comparison all operate on code
units, so the parser is modelled over `List ℕ` of code units (an
astral code point contributes a surrogate pair).  JavaScript `number`s
that can be NaN (the result of `parseInt` on a non-numeral) are
modelled as `Option ℚ`, `none` standing for NaN.  The two regular
expressions are modelled by explicit leftmost-match scanners.  The
name lookup `colorNames[lowerColor]` is an ordinary JavaScript
property read, which falls through to the prototype chain: a key
naming one of the string-keyed members of `Object.prototype`
(`"constructor"`, `"__proto__"`, `"toString"`, ...) yields that
inherited member — a truthy function or object, not an RGB triple —
so the result type `JsColorValue` keeps that case apart from the
`[r, g, b]` arrays every other path returns.  `toLowerCase` is
modelled by its action on ASCII, which is the only case the lookup
theorems rely on (the table keys and the prototype-member names are
all ASCII; full Unicode case mapping is not modelled, so the
white-default theorem restricts its inputs to ASCII). -/

namespace ColorParse

/-- UTF-16 encoding of one code point: an astral code point becomes a
high/low surrogate pair. -/
def charUtf16 (ch : Char) : List ℕ :=
  if ch.toNat < 65536 then [ch.toNat]
  else [55296 + (ch.toNat - 65536) / 1024, 56320 + (ch.toNat - 65536) % 1024]

/-- The UTF-16 code units of a string. -/
def utf16Units (s : String) : List ℕ :=
  s.data.flatMap charUtf16

/-- Code units matched by the regex class `\s`: the ECMAScript
WhiteSpace and LineTerminator sets (TAB, LF, VT, FF, CR, SP, NBSP,
OGHAM SPACE MARK, the EN QUAD .. HAIR SPACE range, LS, PS, NNBSP,
MMSP, IDEOGRAPHIC SPACE and ZWNBSP). -/
def isJsSpace (u : ℕ) : Bool :=
  (decide (9 ≤ u) && decide (u ≤ 13)) || u == 32 || u == 160 || u == 5760 ||
    (decide (8192 ≤ u) && decide (u ≤ 8202)) || u == 8232 || u == 8233 ||
    u == 8239 || u == 8287 || u == 12288 || u == 65279

/-- Value of one hexadecimal digit (by code unit), `none` otherwise. -/
def hexDigitVal? (u : ℕ) : Option ℕ :=
  if 48 ≤ u ∧ u ≤ 57 then some (u - 48)
  else if 97 ≤ u ∧ u ≤ 102 then some (u - 87)
  else if 65 ≤ u ∧ u ≤ 70 then some (u - 55)
  else none

/-- Accumulate the longest run of hexadecimal digits. -/
def hexValLoop : List ℕ → ℕ → ℕ
  | [], acc => acc
  | u :: rest, acc =>
    match hexDigitVal? u with
    | some d => hexValLoop rest (acc * 16 + d)
    | none => acc

/-- Value of the longest nonempty leading run of hexadecimal digits;
`none` (NaN) when the first code unit is not a hexadecimal digit. -/
def hexValOfRun (us : List ℕ) : Option ℕ :=
  match us with
  | u :: rest =>
    match hexDigitVal? u with
    | some d => some (hexValLoop rest d)
    | none => none
  | [] => none

/-- Radix-16 `parseInt` strips a leading `0x`/`0X`. -/
def strip0x (us : List ℕ) : List ℕ :=
  match us with
  | a :: b :: rest =>
    if a = ('0').toNat ∧ (b = ('x').toNat ∨ b = ('X').toNat) then rest else us
  | _ => us

/-- JavaScript `parseInt(s, 16)`: skip whitespace, optional sign,
optional `0x`, then the longest run of hexadecimal digits; NaN
(`none`) when that run is empty. -/
def jsParseIntHex (us0 : List ℕ) : Option ℤ :=
  let us := us0.dropWhile isJsSpace
  match us with
  | a :: rest =>
    if a = ('-').toNat then (hexValOfRun (strip0x rest)).map (fun n => -(n : ℤ))
    else if a = ('+').toNat then (hexValOfRun (strip0x rest)).map (fun n => (n : ℤ))
    else (hexValOfRun (strip0x (a :: rest))).map (fun n => (n : ℤ))
  | [] => none

/-- Code units matched by the regex class `\d`. -/
def isDigitCU (u : ℕ) : Bool := decide (48 ≤ u) && decide (u ≤ 57)

/-- Decimal value of a run of digits (the regex captures `\d+`, so
`parseInt` with radix 10 never sees a non-digit here). -/
def decVal (us : List ℕ) : ℕ :=
  us.foldl (fun acc u => acc * 10 + (u - 48)) 0

/-- Regex fragment `\s*`. -/
def eatWs (us : List ℕ) : List ℕ := us.dropWhile isJsSpace

/-- Regex fragment `\s*(\d+)`: skip spaces, capture a nonempty digit
run, return its value and the rest. -/
def eatNum (us : List ℕ) : Option (ℕ × List ℕ) :=
  let us1 := eatWs us
  let ds := us1.takeWhile isDigitCU
  if ds.isEmpty then none else some (decVal ds, us1.dropWhile isDigitCU)

/-- Regex fragment `\s*,`. -/
def eatComma (us : List ℕ) : Option (List ℕ) :=
  match eatWs us with
  | a :: rest => if a = (',').toNat then some rest else none
  | [] => none

/-- Code units of the regex class `[\d.]`. -/
def isAlphaRunChar (u : ℕ) : Bool := isDigitCU u || u == ('.').toNat

/-- Match `rgb\(\s*(\d+)\s*,\s*(\d+)\s*,\s*(\d+)\s*\)` at the head of
the list. -/
def matchRgbAt (us : List ℕ) : Option (ℕ × ℕ × ℕ) :=
  match us with
  | a :: b :: d :: e :: rest =>
    if a = ('r').toNat ∧ b = ('g').toNat ∧ d = ('b').toNat ∧ e = ('(').toNat then
      match eatNum rest with
      | none => none
      | some (rv, rest) =>
        match eatComma rest with
        | none => none
        | some rest =>
          match eatNum rest with
          | none => none
          | some (gv, rest) =>
            match eatComma rest with
            | none => none
            | some rest =>
              match eatNum rest with
              | none => none
              | some (bv, rest) =>
                match eatWs rest with
                | a2 :: _ => if a2 = (')').toNat then some (rv, gv, bv) else none
                | [] => none
    else none
  | _ => none

/-- Match `rgba\(\s*(\d+)\s*,\s*(\d+)\s*,\s*(\d+)\s*,\s*[\d.]+\s*\)`
at the head of the list (the alpha component is not captured). -/
def matchRgbaAt (us : List ℕ) : Option (ℕ × ℕ × ℕ) :=
  match us with
  | a :: b :: d :: e :: f :: rest =>
    if a = ('r').toNat ∧ b = ('g').toNat ∧ d = ('b').toNat ∧ e = ('a').toNat ∧
        f = ('(').toNat then
      match eatNum rest with
      | none => none
      | some (rv, rest) =>
        match eatComma rest with
        | none => none
        | some rest =>
          match eatNum rest with
          | none => none
          | some (gv, rest) =>
            match eatComma rest with
            | none => none
            | some rest =>
              match eatNum rest with
              | none => none
              | some (bv, rest) =>
                match eatComma rest with
                | none => none
                | some rest =>
                  let rest2 := eatWs rest
                  let arun := rest2.takeWhile isAlphaRunChar
                  if arun.isEmpty then none
                  else
                    match eatWs (rest2.dropWhile isAlphaRunChar) with
                    | a2 :: _ => if a2 = (')').toNat then some (rv, gv, bv) else none
                    | [] => none
    else none
  | _ => none

/-- Leftmost match of the `rgb(...)` regex anywhere in the list. -/
def findRgb : List ℕ → Option (ℕ × ℕ × ℕ)
  | [] => none
  | u :: rest =>
    match matchRgbAt (u :: rest) with
    | some v => some v
    | none => findRgb rest

/-- Leftmost match of the `rgba(...)` regex anywhere in the list. -/
def findRgba : List ℕ → Option (ℕ × ℕ × ℕ)
  | [] => none
  | u :: rest =>
    match matchRgbaAt (u :: rest) with
    | some v => some v
    | none => findRgba rest

/-- `toLowerCase`, restricted to its ASCII action (`A`-`Z` map to
`a`-`z`; every key this model compares against is ASCII). -/
def jsToLower (u : ℕ) : ℕ := if 65 ≤ u ∧ u ≤ 90 then u + 32 else u

/-- The `colorNames` table of the source (own properties of the
object literal). -/
def colorNames : List (List ℕ × (ℚ × ℚ × ℚ)) :=
  [ (utf16Units ("white"), (1, 1, 1)),
    (utf16Units ("black"), (0, 0, 0)),
    (utf16Units ("red"), (1, 0, 0)),
    (utf16Units ("green"), (0, 1, 0)),
    (utf16Units ("blue"), (0, 0, 1)),
    (utf16Units ("yellow"), (1, 1, 0)),
    (utf16Units ("cyan"), (0, 1, 1)),
    (utf16Units ("magenta"), (1, 0, 1)),
    (utf16Units ("gray"), (1/2, 1/2, 1/2)),
    (utf16Units ("grey"), (1/2, 1/2, 1/2)) ]

/-- The string-keyed members of `Object.prototype`, reachable through
`colorNames[lowerColor]` by prototype-chain lookup; every one of them
is truthy (a function, or for `__proto__` the prototype object), so
the source returns it instead of falling through to white. -/
def protoMemberNames : List (List ℕ) :=
  [ utf16Units ("constructor"),
    utf16Units ("hasOwnProperty"),
    utf16Units ("isPrototypeOf"),
    utf16Units ("propertyIsEnumerable"),
    utf16Units ("toLocaleString"),
    utf16Units ("toString"),
    utf16Units ("valueOf"),
    utf16Units ("__defineGetter__"),
    utf16Units ("__defineSetter__"),
    utf16Units ("__lookupGetter__"),
    utf16Units ("__lookupSetter__"),
    utf16Units ("__proto__") ]

/-- What `parseColor` actually returns at runtime: an `[r, g, b]`
array of numbers (NaN as `none`), or — through the prototype-chain
lookup — an inherited `Object.prototype` member, identified here by
its name. -/
inductive JsColorValue
  | rgb (r g b : Option ℚ)
  | protoMember (name : List ℕ)
deriving DecidableEq, Repr

/-- One hex color component: `parseInt(pair, 16) / 255`, NaN as
`none`. -/
def hexComp (u1 u2 : ℕ) : Option ℚ :=
  (jsParseIntHex [u1, u2]).map (fun n => (n : ℚ) / 255)

/-- The non-hex tail of `parseColor`: `rgb()` regex, then `rgba()`
regex, then the property read `colorNames[lowerColor]` (own table
first, then the `Object.prototype` members, all truthy), then the
white default. -/
def restPipeline (us : List ℕ) : JsColorValue :=
  match findRgb us with
  | some (rv, gv, bv) =>
    .rgb (some ((rv : ℚ) / 255)) (some ((gv : ℚ) / 255)) (some ((bv : ℚ) / 255))
  | none =>
    match findRgba us with
    | some (rv, gv, bv) =>
      .rgb (some ((rv : ℚ) / 255)) (some ((gv : ℚ) / 255)) (some ((bv : ℚ) / 255))
    | none =>
      let lower := us.map jsToLower
      match colorNames.find? (fun p => p.1 == lower) with
      | some p => .rgb (some p.2.1) (some p.2.2.1) (some p.2.2.2)
      | none =>
        if protoMemberNames.contains lower then .protoMember lower
        else .rgb (some 1) (some 1) (some 1)

/-- `parseColor` over the code-unit list: `#`-prefixed strings whose
remainder has UTF-16 length 3 or 6 take the hex branches (and return
early whatever `parseInt` yields, NaN included); every other string
goes through `restPipeline`. -/
def parseColorChars (us : List ℕ) : JsColorValue :=
  match us with
  | a :: u1 :: u2 :: u3 :: [] =>
    if a = ('#').toNat then .rgb (hexComp u1 u1) (hexComp u2 u2) (hexComp u3 u3)
    else restPipeline us
  | a :: u1 :: u2 :: u3 :: u4 :: u5 :: u6 :: [] =>
    if a = ('#').toNat then .rgb (hexComp u1 u2) (hexComp u3 u4) (hexComp u5 u6)
    else restPipeline us
  | _ => restPipeline us

end ColorParse

/-- `parseColor` on a string (converted to its UTF-16 code units). -/
def parseColor (color : String) : ColorParse.JsColorValue :=
  ColorParse.parseColorChars (ColorParse.utf16Units color)

/-! # Theorems -/

/-! ## C2: adaptive quality controller -/

/-- Auxiliary: the cooldown branch of `shouldAdjustQuality`. -/
theorem shouldAdjustQuality_cooldown (avg target lastChange currentTime : ℚ)
    (h : currentTime - lastChange < 3000) :
    shouldAdjustQuality avg target lastChange currentTime = false := by
  unfold shouldAdjustQuality
  simp only [if_pos h]

/-- C2 counterexample: `getOptimalQuality` maps the `high` tier
directly to `low` when the average frame rate drops below 25 fps,
skipping `medium`; the claim that no single transition ever moves
`high` directly to `low` is false at average frame rate 24. -/
theorem getOptimalQuality_high_to_low_counterexample :
    getOptimalQuality Quality.high 24 = Quality.low := by decide

/-- C2 (amended): a tier change never happens within 3000 ms of the
previous change (both for the gate itself and for the per-frame
adjustment step); `low` is never mapped directly to `high`; every
transition at average frame rate ≥ 25 moves at most one step; but
below 25 fps the controller jumps straight to `low` from any tier. -/
theorem quality_controller_amended :
    (∀ avg target lastChange currentTime : ℚ,
      currentTime - lastChange < 3000 →
      shouldAdjustQuality avg target lastChange currentTime = false) ∧
    (∀ (prevQ : Quality) (lastChange avg target currentTime : ℚ),
      currentTime - lastChange < 3000 →
      qualityAdjustStep prevQ lastChange avg target currentTime = (prevQ, lastChange)) ∧
    (∀ avg : ℚ, getOptimalQuality Quality.low avg ≠ Quality.high) ∧
    (∀ (q : Quality) (avg : ℚ), 25 ≤ avg →
      (Quality.idx (getOptimalQuality q avg) : ℤ) - Quality.idx q ≤ 1 ∧
      (Quality.idx q : ℤ) - Quality.idx (getOptimalQuality q avg) ≤ 1) ∧
    (∀ (q : Quality) (avg : ℚ), avg < 25 → getOptimalQuality q avg = Quality.low) := by
  refine ⟨shouldAdjustQuality_cooldown, ?_, ?_, ?_, ?_⟩
  · intro prevQ lastChange avg target currentTime h
    unfold qualityAdjustStep
    rw [shouldAdjustQuality_cooldown avg target lastChange currentTime h]
    simp
  · intro avg
    unfold getOptimalQuality
    split_ifs <;> simp_all
  · intro q avg h
    cases q <;>
      · unfold getOptimalQuality
        split_ifs <;> first
          | (exfalso; linarith)
          | decide
          | simp_all
  · intro q avg h
    unfold getOptimalQuality
    rw [if_pos h]

/-- Witness for `quality_controller_amended` at concrete inputs. -/
theorem quality_controller_amended_witness :
    shouldAdjustQuality 10 60 0 2000 = false ∧
    qualityAdjustStep Quality.high 0 10 60 2000 = (Quality.high, 0) ∧
    getOptimalQuality Quality.low 100 ≠ Quality.high ∧
    ((Quality.idx (getOptimalQuality Quality.high 30) : ℤ) - Quality.idx Quality.high ≤ 1 ∧
      (Quality.idx Quality.high : ℤ) - Quality.idx (getOptimalQuality Quality.high 30) ≤ 1) ∧
    getOptimalQuality Quality.medium 10 = Quality.low :=
  ⟨quality_controller_amended.1 10 60 0 2000 (by norm_num),
    quality_controller_amended.2.1 Quality.high 0 10 60 2000 (by norm_num),
    quality_controller_amended.2.2.1 100,
    quality_controller_amended.2.2.2.1 Quality.high 30 (by norm_num),
    quality_controller_amended.2.2.2.2 Quality.medium 10 (by norm_num)⟩

/-! ## C4: post-link validation is not advisory -/

/-- C4 counterexample: with the primary program linked, the fallback
compiling, and validation failing, initialization ends up rendering
with the fallback program, not the primary one — the validation result
does change which shader program is used. -/
theorem validation_changes_program_counterexample :
    selectShaderProgram true false true = ProgramChoice.fallbackProgram ∧
    selectShaderProgram true true true = ProgramChoice.primary := by decide

/-- C4 (amended): a validation failure of the successfully linked
primary program does not block rendering — initialization still
succeeds whenever the fallback shader compiles — but rendering then
proceeds with the fallback program instead of the primary one. -/
theorem validation_failure_amended :
    (∀ fallbackCompiles : Bool,
      selectShaderProgram true false fallbackCompiles =
        if fallbackCompiles then ProgramChoice.fallbackProgram
        else ProgramChoice.initializationFailed) ∧
    (∀ validationOk : Bool,
      selectShaderProgram true validationOk true ≠ ProgramChoice.initializationFailed) := by
  constructor
  · intro fallbackCompiles; cases fallbackCompiles <;> decide
  · intro validationOk; cases validationOk <;> decide

/-! ## C6: pointer-jump discontinuity handling -/

/-- C6: any mouse-move whose clamped target delta exceeds `0.5` on
either axis snaps both `current` and `target` to the new coordinates
and resets the velocity to exactly `(0, 0)`. -/
theorem mouse_jump_resets_velocity (ms : Option ℚ) (prev : MouseState) (rawX rawY now : ℚ)
    (h : |max 0 (min 1 rawX) - prev.target.x| > 1/2 ∨
      |max 0 (min 1 rawY) - prev.target.y| > 1/2) :
    handleMouseMoveUpdate ms prev rawX rawY now =
      { current := ⟨max 0 (min 1 rawX), max 0 (min 1 rawY)⟩,
        target := ⟨max 0 (min 1 rawX), max 0 (min 1 rawY)⟩,
        velocity := ⟨0, 0⟩, isActive := true, lastMoveTime := now } := by
  unfold handleMouseMoveUpdate
  rw [if_pos h]

/-- Witness for `mouse_jump_resets_velocity`: a jump from target
`(0, 0)` to `(1, 0)`. -/
theorem mouse_jump_resets_velocity_witness :
    handleMouseMoveUpdate none
        { current := ⟨0, 0⟩, target := ⟨0, 0⟩, velocity := ⟨700, -700⟩,
          isActive := true, lastMoveTime := 0 } 1 0 5 =
      { current := ⟨max 0 (min 1 1), max 0 (min 1 0)⟩,
        target := ⟨max 0 (min 1 1), max 0 (min 1 0)⟩,
        velocity := ⟨0, 0⟩, isActive := true, lastMoveTime := 5 } :=
  mouse_jump_resets_velocity none
    { current := ⟨0, 0⟩, target := ⟨0, 0⟩, velocity := ⟨700, -700⟩,
      isActive := true, lastMoveTime := 0 } 1 0 5 (by norm_num)

/-! ## C7: performance history window -/

/-- Auxiliary: one push preserves the 60-entry bound. -/
theorem updateFrameRateHistory_length_le (h : List ℚ) (v : ℚ) (hb : h.length ≤ 60) :
    (updateFrameRateHistory h v).length ≤ 60 := by
  unfold updateFrameRateHistory
  split_ifs with hfull
  · simp only [List.length_append, List.length_take, List.length_drop,
      List.length_singleton]
    omega
  · simp only [List.length_append, List.length_singleton]
    omega

/-- C7: starting from the empty history, any sequence of samples keeps
the window within its 60-entry bound; eviction at the bound is FIFO
(the oldest entry is dropped, the new sample appended); below the
bound samples are appended; and the average of a history holding `n`
copies of the same value `v` is exactly `v`. -/
theorem frame_history_window (samples : List ℚ) (h : List ℚ) (v w : ℚ) (n : ℕ)
    (hfull : h.length = 60) (hn : 0 < n) :
    (runFrameRateHistory samples).length ≤ 60 ∧
    updateFrameRateHistory h v = h.drop 1 ++ [v] ∧
    (h.length < 60 → False) ∧
    (∀ h' : List ℚ, h'.length < 60 → updateFrameRateHistory h' v = h' ++ [v]) ∧
    calculateAverageFrameRate (List.replicate n w) = w := by
  refine ⟨?_, ?_, by omega, ?_, ?_⟩
  · have step : ∀ (l : List ℚ) (hs : List ℚ), hs.length ≤ 60 →
        (l.foldl (fun acc s => updateFrameRateHistory acc s) hs).length ≤ 60 := by
      intro l
      induction l with
      | nil => intro hs hb; simpa using hb
      | cons a t ih =>
        intro hs hb
        exact ih _ (updateFrameRateHistory_length_le hs a hb)
    exact step samples [] (by simp)
  · unfold updateFrameRateHistory
    rw [if_pos (by omega)]
    have h1 : (h.drop 1).take 59 = h.drop 1 := by
      apply List.take_of_length_le
      simp [hfull]
    have h2 : h.drop 60 = [] := by
      apply List.drop_eq_nil_of_le
      omega
    rw [h1, h2]
    simp
  · intro h' hlt
    unfold updateFrameRateHistory
    rw [if_neg (by omega)]
  · unfold calculateAverageFrameRate
    rw [if_neg (by simp; omega)]
    simp [List.sum_replicate, nsmul_eq_mul]
    have hn0 : (n : ℚ) ≠ 0 := by exact_mod_cast Nat.pos_iff_ne_zero.mp hn
    rw [mul_comm, mul_div_assoc, div_self hn0, mul_one]

/-- Witness for `frame_history_window`: the bound after pushing three
samples, FIFO eviction on a full window of sixty `5`s, append below
the bound, and the average of sixty copies of `42`. -/
theorem frame_history_window_witness :
    (runFrameRateHistory [10, 20, 30]).length ≤ 60 ∧
    updateFrameRateHistory (List.replicate 60 (5 : ℚ)) 7 =
      (List.replicate 60 (5 : ℚ)).drop 1 ++ [7] ∧
    ((List.replicate 60 (5 : ℚ)).length < 60 → False) ∧
    (∀ h' : List ℚ, h'.length < 60 → updateFrameRateHistory h' 7 = h' ++ [7]) ∧
    calculateAverageFrameRate (List.replicate 60 (42 : ℚ)) = 42 :=
  frame_history_window [10, 20, 30] (List.replicate 60 (5 : ℚ)) 7 42 60 (by simp) (by norm_num)

/-! ## C8: context-loss state preservation and restoration -/

/-- C8 counterexample: restoration does not leave every preserved
field other than `frameCount` / `frameRateHistory` untouched — the
preserved `lastFrameTime` (5 in this snapshot) is overwritten with the
current clock (7). -/
theorem restore_alters_lastFrameTime_counterexample :
    (restoreStateAfterRecovery
        (preserveStateForRecovery
          { current := ⟨0, 0⟩, target := ⟨0, 0⟩, velocity := ⟨0, 0⟩,
            isActive := false, lastMoveTime := 0 }
          { frameCount := 500, lastFrameTime := 5, frameRate := 60, averageFrameRate := 59,
            frameRateHistory := [60, 58], isPerformanceGood := true,
            adaptiveQuality := Quality.high, lastQualityChange := 1 }
          (some ("img.png")) (640, 480)) 7
        { current := ⟨0, 0⟩, target := ⟨0, 0⟩, velocity := ⟨0, 0⟩,
          isActive := false, lastMoveTime := 0 }
        { frameCount := 0, lastFrameTime := 0, frameRate := 60, averageFrameRate := 60,
          frameRateHistory := [], isPerformanceGood := true,
          adaptiveQuality := Quality.medium, lastQualityChange := 0 }
        (0, 0)).2.1.lastFrameTime = 7 ∧ (7 : ℚ) ≠ 5 := by
  constructor
  · rfl
  · norm_num

/-- C8 (amended): a successful recovery restores the preserved
`MouseState` and canvas dimensions exactly; the restored
`PerformanceState` keeps every preserved field — in particular the
`adaptiveQuality` tier — except that `frameCount` is reset to `0`,
`frameRateHistory` to `[]`, and `lastFrameTime` to the current clock
value. -/
theorem restore_recovers_snapshot (m : MouseState) (p : PerformanceState)
    (src : Option String) (dims : ℚ × ℚ) (now : ℚ)
    (m0 : MouseState) (p0 : PerformanceState) (d0 : ℚ × ℚ) :
    restoreStateAfterRecovery (preserveStateForRecovery m p src dims) now m0 p0 d0 =
      (m, { p with frameCount := 0, lastFrameTime := now, frameRateHistory := [] }, dims) :=
  rfl

/-! ## C9: texture-failure placeholder path -/

/-- C9 counterexample: with the `medium` tier active (texture-size cap
1024) and a device limit of 4096, the placeholder is created at
512x512, not at the tier's cap of 1024. -/
theorem placeholder_size_counterexample :
    (loadTextureOnError ("decode failure") 0 true (some 4096) Quality.medium).textureWidth
        = 512 ∧
    min (qualityPresets Quality.medium).textureSize 4096 = 1024 := by
  constructor
  · rfl
  · rfl

/-- C9 (amended): when the failure is final (non-transient, or the
3-retry budget is spent) and a live GL context plus device
capabilities exist, a placeholder texture is created, `hasError` ends
up `false`, and the placeholder is a square of side
`min(tier texture cap, device max texture size, 512)`. -/
theorem texture_placeholder_amended (msg : String) (retryCount : ℕ) (caps : ℕ) (q : Quality)
    (h : ¬(retryCount < 3 ∧ isTransientTextureError msg = true)) :
    (loadTextureOnError msg retryCount true (some caps) q).hasError = false ∧
    (loadTextureOnError msg retryCount true (some caps) q).placeholderCreated = true ∧
    (loadTextureOnError msg retryCount true (some caps) q).textureWidth =
      min (qualityPresets q).textureSize (min caps 512) ∧
    (loadTextureOnError msg retryCount true (some caps) q).textureHeight =
      min (qualityPresets q).textureSize (min caps 512) := by
  unfold loadTextureOnError
  rw [if_neg h]
  exact ⟨rfl, rfl, rfl, rfl⟩

/-- Witness for `texture_placeholder_amended`: a non-transient decode
failure on the first attempt, `medium` tier, device cap 4096. -/
theorem texture_placeholder_amended_witness :
    (loadTextureOnError ("decode failure") 0 true (some 4096) Quality.medium).hasError
        = false ∧
    (loadTextureOnError ("decode failure") 0 true (some 4096) Quality.medium).placeholderCreated
        = true ∧
    (loadTextureOnError ("decode failure") 0 true (some 4096) Quality.medium).textureWidth =
      min (qualityPresets Quality.medium).textureSize (min 4096 512) ∧
    (loadTextureOnError ("decode failure") 0 true (some 4096) Quality.medium).textureHeight =
      min (qualityPresets Quality.medium).textureSize (min 4096 512) :=
  texture_placeholder_amended ("decode failure") 0 4096 Quality.medium (by decide)

/-! ## C5: velocity bounding in the pointer tracker -/

/-- Auxiliary: one mouse-move event keeps each stored velocity
component within `±5000`. -/
theorem handleMouseMoveUpdate_velocity_bound (ms : Option ℚ) (prev : MouseState)
    (rawX rawY now : ℚ) (hx : |prev.velocity.x| ≤ 5000) (hy : |prev.velocity.y| ≤ 5000) :
    |(handleMouseMoveUpdate ms prev rawX rawY now).velocity.x| ≤ 5000 ∧
    |(handleMouseMoveUpdate ms prev rawX rawY now).velocity.y| ≤ 5000 := by
  simp only [handleMouseMoveUpdate]
  split_ifs with hjump
  · norm_num
  · set s := max (1/10 : ℚ) (min (19/20) (jsOrNum ms (4/5))) with hs
    have hs0 : (0 : ℚ) ≤ s := le_trans (by norm_num) (le_max_left _ _)
    have hs1 : s ≤ 1 := by
      apply max_le (by norm_num)
      exact le_trans (min_le_left _ _) (by norm_num)
    have hclamp : ∀ q : ℚ, |max (-5000) (min 5000 q)| ≤ 5000 := by
      intro q
      rw [abs_le]
      constructor
      · exact le_max_left _ _
      · exact max_le (by norm_num) (min_le_left _ _)
    have hmix : ∀ a b : ℚ, |a| ≤ 5000 → |b| ≤ 5000 → |a * s + b * (1 - s)| ≤ 5000 := by
      intro a b ha hb
      calc |a * s + b * (1 - s)| ≤ |a * s| + |b * (1 - s)| := abs_add _ _
        _ = |a| * s + |b| * (1 - s) := by
            rw [abs_mul, abs_mul, abs_of_nonneg hs0,
              abs_of_nonneg (show (0 : ℚ) ≤ 1 - s by linarith)]
        _ ≤ 5000 * s + 5000 * (1 - s) := by
            have h1 : |a| * s ≤ 5000 * s := mul_le_mul_of_nonneg_right ha hs0
            have h2 : |b| * (1 - s) ≤ 5000 * (1 - s) :=
              mul_le_mul_of_nonneg_right hb (by linarith)
            linarith
        _ = 5000 := by ring
    exact ⟨hmix _ _ hx (hclamp _), hmix _ _ hy (hclamp _)⟩

/-- C5 counterexample: the touch-move path lacks the `±5000` clamp.
From a resting tracker (zero velocity, target `(0, 0)`), a single
touch-move whose unclamped normalized coordinate is `26` one
millisecond later stores velocity `x`-component `5200 > 5000`. -/
theorem touch_velocity_exceeds_max_counterexample :
    ((handleTouchMoveUpdate (some (4/5))
        { current := ⟨0, 0⟩, target := ⟨0, 0⟩, velocity := ⟨0, 0⟩,
          isActive := true, lastMoveTime := 0 } 26 0 1).velocity.x = 5200) ∧
    (5000 : ℚ) < 5200 := by
  refine ⟨?_, by norm_num⟩
  simp only [handleTouchMoveUpdate, jsOrNum]
  norm_num

/-- C5 (amended): for mouse-move events the stored velocity is the
exponential moving average of the per-event clamped velocities, and
starting from any velocity within `±5000` per axis — in particular
from zero — no sequence of mouse-move events can push a stored
component beyond `±5000`; the touch-move path applies the moving
average without a clamp and does not share this bound. -/
theorem mouse_velocity_bounded (ms : Option ℚ) (s0 : MouseState) (events : List (ℚ × ℚ × ℚ))
    (hx : |s0.velocity.x| ≤ 5000) (hy : |s0.velocity.y| ≤ 5000) :
    |(runMouseMoves ms s0 events).velocity.x| ≤ 5000 ∧
    |(runMouseMoves ms s0 events).velocity.y| ≤ 5000 := by
  unfold runMouseMoves
  induction events generalizing s0 with
  | nil => exact ⟨hx, hy⟩
  | cons e t ih =>
    simp only [List.foldl_cons]
    have hstep := handleMouseMoveUpdate_velocity_bound ms s0 e.1 e.2.1 e.2.2 hx hy
    exact ih _ hstep.1 hstep.2

/-- Witness for `mouse_velocity_bounded`: two fast moves from rest. -/
theorem mouse_velocity_bounded_witness :
    |(runMouseMoves none
        { current := ⟨0, 0⟩, target := ⟨0, 0⟩, velocity := ⟨0, 0⟩,
          isActive := false, lastMoveTime := 0 }
        [(2/5, 0, 1), (0, 2/5, 2)]).velocity.x| ≤ 5000 ∧
    |(runMouseMoves none
        { current := ⟨0, 0⟩, target := ⟨0, 0⟩, velocity := ⟨0, 0⟩,
          isActive := false, lastMoveTime := 0 }
        [(2/5, 0, 1), (0, 2/5, 2)]).velocity.y| ≤ 5000 :=
  mouse_velocity_bounded none
    { current := ⟨0, 0⟩, target := ⟨0, 0⟩, velocity := ⟨0, 0⟩,
      isActive := false, lastMoveTime := 0 }
    [(2/5, 0, 1), (0, 2/5, 2)] (by norm_num) (by norm_num)

/-! ## C3: fall-off monotonicity -/

/-- Auxiliary: the Hermite basis `t^2 (3 - 2 t)` is monotone on
`[0, 1]`. -/
theorem hermite_mono {a b : ℝ} (ha : 0 ≤ a) (hab : a ≤ b) (hb : b ≤ 1) :
    a * a * (3 - 2 * a) ≤ b * b * (3 - 2 * b) := by
  nlinarith [mul_nonneg ha (sub_nonneg.mpr (hab.trans hb)),
    mul_nonneg (ha.trans hab) (sub_nonneg.mpr hb),
    mul_nonneg (mul_nonneg ha (ha.trans hab)) (sub_nonneg.mpr hb),
    mul_nonneg (sub_nonneg.mpr hab) (sub_nonneg.mpr hb),
    mul_nonneg ha (sub_nonneg.mpr hb)]

/-- Auxiliary: `smoothstep(0, r, ·)` is monotone non-decreasing for a
positive radius. -/
theorem smoothstepVal_mono (r : ℝ) (hr : 0 < r) {d1 d2 : ℝ} (h : d1 ≤ d2) :
    Glsl.smoothstepVal 0 r d1 ≤ Glsl.smoothstepVal 0 r d2 := by
  simp only [Glsl.smoothstepVal, sub_zero]
  have ht : min (max (d1 / r) 0) 1 ≤ min (max (d2 / r) 0) 1 := by
    apply min_le_min _ le_rfl
    apply max_le_max _ le_rfl
    exact (div_le_div_iff_of_pos_right hr).mpr h
  have h0 : (0 : ℝ) ≤ min (max (d1 / r) 0) 1 := le_min (le_max_right _ _) zero_le_one
  have h1 : min (max (d2 / r) 0) 1 ≤ 1 := min_le_right _ _
  exact hermite_mono h0 ht h1

/-- Auxiliary: `smoothstep` values lie in `[0, 1]`. -/
theorem smoothstepVal_mem (r d : ℝ) :
    0 ≤ Glsl.smoothstepVal 0 r d ∧ Glsl.smoothstepVal 0 r d ≤ 1 := by
  simp only [Glsl.smoothstepVal, sub_zero]
  set t := min (max (d / r) 0) 1 with htdef
  have h0 : (0 : ℝ) ≤ t := le_min (le_max_right _ _) zero_le_one
  have h1 : t ≤ 1 := min_le_right _ _
  constructor
  · nlinarith [mul_nonneg (mul_nonneg h0 h0) (show (0 : ℝ) ≤ 3 - 2 * t by linarith)]
  · nlinarith [hermite_mono h0 h1 le_rfl]

/-- C3: for a positive radius and a nonnegative exponent (the
component's property controls keep both fall-off exponents in
`[0.1, 5]` and the radii positive), the common fall-off curve
`pow(1 - smoothstep(0, radius, dist), exponent)` — instantiated by the
shader both as the interaction fall-off
`(u_interactionRadius, u_interactionFalloff)` and as the intensity
fall-off `(u_radius, u_falloff)` — is monotone non-increasing in the
distance: `falloff(d2) ≤ falloff(d1)` whenever `0 ≤ d1 < d2`. -/
theorem falloff_monotone (radius expo : ℝ) (hr : 0 < radius) (he : 0 ≤ expo)
    (d1 d2 : ℝ) (_h1 : 0 ≤ d1) (h12 : d1 < d2) :
    (falloffCurve radius expo d2).val ≤ (falloffCurve radius expo d1).val := by
  have hs12 := smoothstepVal_mono radius hr h12.le
  have hm2 := smoothstepVal_mem radius d2
  have key : (1 - Glsl.smoothstepVal 0 radius d2) ^ expo ≤
      (1 - Glsl.smoothstepVal 0 radius d1) ^ expo :=
    Real.rpow_le_rpow (by linarith [hm2.2]) (by linarith) he
  simp only [falloffCurve, Glsl.powG, Glsl.sub, Glsl.smoothstepG, Glsl.c]
  norm_num
  convert key using 3

/-- Witness for `falloff_monotone` at the default parameters
(radius 0.3, exponent 0.8) and distances 0 and 1. -/
theorem falloff_monotone_witness :
    (falloffCurve (3/10) (4/5) 1).val ≤ (falloffCurve (3/10) (4/5) 0).val :=
  falloff_monotone (3/10) (4/5) (by norm_num) (by norm_num) 0 1 le_rfl (by norm_num)

/-! ## C1: NaN at zero pointer distance -/

set_option maxHeartbeats 1000000 in
/-- C1 evaluation at the failing input: with the default parameters
and the pointer exactly at the sampled UV coordinate — distance zero,
e.g. the exact center `(0.5, 0.5)`, which is also the effective
pointer position under auto-animation — `fluidDistortion`,
`magneticDistortion` and `rippleDistortion` all evaluate
`normalize(uv - mouse)` on the zero vector (a division by its zero
length) and the resulting NaN propagates into both components of the
returned UV; `vortexDistortion` alone is guarded and returns the
identity UV.  The `.nan` fields below record exactly that an
IEEE-undefined operation reaches the result. -/
theorem distortion_nan_at_zero_distance :
    (Shader.fluidDistortion defaultUniforms (Glsl.v2 (1/2) (1/2)) (Glsl.v2 (1/2) (1/2)) 0).x.nan ∧
    (Shader.fluidDistortion defaultUniforms (Glsl.v2 (1/2) (1/2)) (Glsl.v2 (1/2) (1/2)) 0).y.nan ∧
    (Shader.magneticDistortion defaultUniforms (Glsl.v2 (1/2) (1/2)) (Glsl.v2 (1/2) (1/2)) 0).x.nan ∧
    (Shader.magneticDistortion defaultUniforms (Glsl.v2 (1/2) (1/2)) (Glsl.v2 (1/2) (1/2)) 0).y.nan ∧
    (Shader.rippleDistortion defaultUniforms (Glsl.v2 (1/2) (1/2)) (Glsl.v2 (1/2) (1/2)) 0).x.nan ∧
    (Shader.rippleDistortion defaultUniforms (Glsl.v2 (1/2) (1/2)) (Glsl.v2 (1/2) (1/2)) 0).y.nan ∧
    Shader.vortexDistortion defaultUniforms (Glsl.v2 (1/2) (1/2)) (Glsl.v2 (1/2) (1/2)) 0 =
      Glsl.v2 (1/2) (1/2) := by
  refine ⟨?_, ?_, ?_, ?_, ?_, ?_, ?_⟩
  · simp [Shader.fluidDistortion, Shader.adds2, Shader.mul2, Shader.ssub2, Shader.floor2,
      Shader.fract2, Shader.noise, Shader.smoothNoise, Shader.fbm,
      Glsl.c, Glsl.add, Glsl.sub, Glsl.mul, Glsl.div, Glsl.neg, Glsl.sinG, Glsl.cosG, Glsl.expG,
      Glsl.sqrtG, Glsl.floorG, Glsl.fractG, Glsl.minG, Glsl.maxG, Glsl.clampG, Glsl.mixG,
      Glsl.powG, Glsl.smoothstepG, Glsl.smoothstepVal, Glsl.v2, Glsl.add2, Glsl.sub2, Glsl.smul2,
      Glsl.dot2, Glsl.length2, Glsl.distance2, Glsl.normalize2, defaultUniforms]
  · simp [Shader.fluidDistortion, Shader.adds2, Shader.mul2, Shader.ssub2, Shader.floor2,
      Shader.fract2, Shader.noise, Shader.smoothNoise, Shader.fbm,
      Glsl.c, Glsl.add, Glsl.sub, Glsl.mul, Glsl.div, Glsl.neg, Glsl.sinG, Glsl.cosG, Glsl.expG,
      Glsl.sqrtG, Glsl.floorG, Glsl.fractG, Glsl.minG, Glsl.maxG, Glsl.clampG, Glsl.mixG,
      Glsl.powG, Glsl.smoothstepG, Glsl.smoothstepVal, Glsl.v2, Glsl.add2, Glsl.sub2, Glsl.smul2,
      Glsl.dot2, Glsl.length2, Glsl.distance2, Glsl.normalize2, defaultUniforms]
  · simp [Shader.magneticDistortion,
      Glsl.c, Glsl.add, Glsl.sub, Glsl.mul, Glsl.div, Glsl.neg, Glsl.sinG, Glsl.cosG, Glsl.expG,
      Glsl.sqrtG, Glsl.floorG, Glsl.fractG, Glsl.minG, Glsl.maxG, Glsl.clampG, Glsl.mixG,
      Glsl.powG, Glsl.smoothstepG, Glsl.smoothstepVal, Glsl.v2, Glsl.add2, Glsl.sub2, Glsl.smul2,
      Glsl.dot2, Glsl.length2, Glsl.distance2, Glsl.normalize2, defaultUniforms]
  · simp [Shader.magneticDistortion,
      Glsl.c, Glsl.add, Glsl.sub, Glsl.mul, Glsl.div, Glsl.neg, Glsl.sinG, Glsl.cosG, Glsl.expG,
      Glsl.sqrtG, Glsl.floorG, Glsl.fractG, Glsl.minG, Glsl.maxG, Glsl.clampG, Glsl.mixG,
      Glsl.powG, Glsl.smoothstepG, Glsl.smoothstepVal, Glsl.v2, Glsl.add2, Glsl.sub2, Glsl.smul2,
      Glsl.dot2, Glsl.length2, Glsl.distance2, Glsl.normalize2, defaultUniforms]
  · simp [Shader.rippleDistortion,
      Glsl.c, Glsl.add, Glsl.sub, Glsl.mul, Glsl.div, Glsl.neg, Glsl.sinG, Glsl.cosG, Glsl.expG,
      Glsl.sqrtG, Glsl.floorG, Glsl.fractG, Glsl.minG, Glsl.maxG, Glsl.clampG, Glsl.mixG,
      Glsl.powG, Glsl.smoothstepG, Glsl.smoothstepVal, Glsl.v2, Glsl.add2, Glsl.sub2, Glsl.smul2,
      Glsl.dot2, Glsl.length2, Glsl.distance2, Glsl.normalize2, defaultUniforms]
  · simp [Shader.rippleDistortion,
      Glsl.c, Glsl.add, Glsl.sub, Glsl.mul, Glsl.div, Glsl.neg, Glsl.sinG, Glsl.cosG, Glsl.expG,
      Glsl.sqrtG, Glsl.floorG, Glsl.fractG, Glsl.minG, Glsl.maxG, Glsl.clampG, Glsl.mixG,
      Glsl.powG, Glsl.smoothstepG, Glsl.smoothstepVal, Glsl.v2, Glsl.add2, Glsl.sub2, Glsl.smul2,
      Glsl.dot2, Glsl.length2, Glsl.distance2, Glsl.normalize2, defaultUniforms]
  · unfold Shader.vortexDistortion
    rw [if_pos]
    constructor
    · simp [Glsl.c, Glsl.sub, Glsl.mul, Glsl.add, Glsl.sqrtG, Glsl.v2, Glsl.sub2, Glsl.dot2,
        Glsl.length2, Glsl.distance2]
    · simp [Glsl.c, Glsl.sub, Glsl.mul, Glsl.add, Glsl.sqrtG, Glsl.v2, Glsl.sub2, Glsl.dot2,
        Glsl.length2, Glsl.distance2]
      norm_num


/-! ## C10: `parseColor` -/

namespace ColorParse

theorem hexDigitVal_facts (u d : ℕ) (h : hexDigitVal? u = some d) :
    d ≤ 15 ∧ isJsSpace u = false ∧ u ≠ ('-').toNat ∧ u ≠ ('+').toNat ∧
      u ≠ ('x').toNat ∧ u ≠ ('X').toNat := by
  have hn : (48 ≤ u ∧ u ≤ 57) ∨ (97 ≤ u ∧ u ≤ 102) ∨ (65 ≤ u ∧ u ≤ 70) := by
    simp only [hexDigitVal?] at h
    split_ifs at h with h1 h2 h3
    · exact Or.inl h1
    · exact Or.inr (Or.inl h2)
    · exact Or.inr (Or.inr h3)
  have hd : d ≤ 15 := by
    simp only [hexDigitVal?] at h
    split_ifs at h with h1 h2 h3 <;> (injection h with h4; omega)
  refine ⟨hd, ?_, ?_, ?_, ?_, ?_⟩
  · simp only [isJsSpace, Bool.or_eq_false_iff, Bool.and_eq_false_iff,
      decide_eq_false_iff_not, beq_eq_false_iff_ne, ne_eq]
    rcases hn with h1 | h1 | h1 <;> omega
  · rw [show ('-').toNat = 45 from rfl]
    rcases hn with h1 | h1 | h1 <;> omega
  · rw [show ('+').toNat = 43 from rfl]
    rcases hn with h1 | h1 | h1 <;> omega
  · rw [show ('x').toNat = 120 from rfl]
    rcases hn with h1 | h1 | h1 <;> omega
  · rw [show ('X').toNat = 88 from rfl]
    rcases hn with h1 | h1 | h1 <;> omega

theorem jsParseIntHex_pair (u1 u2 : ℕ) (d1 d2 : ℕ)
    (h1 : hexDigitVal? u1 = some d1) (h2 : hexDigitVal? u2 = some d2) :
    jsParseIntHex [u1, u2] = some ((d1 * 16 + d2 : ℕ) : ℤ) := by
  obtain ⟨hb1, hs1, hm1, hp1, hx1, hX1⟩ := hexDigitVal_facts u1 d1 h1
  obtain ⟨hb2, hs2, hm2, hp2, hx2, hX2⟩ := hexDigitVal_facts u2 d2 h2
  unfold jsParseIntHex
  simp only [List.dropWhile_cons, hs1, Bool.false_eq_true, if_false]
  rw [if_neg hm1, if_neg hp1]
  simp only [strip0x]
  rw [if_neg (by rintro ⟨h3, hx | hX⟩ <;> simp_all)]
  simp only [hexValOfRun, h1, hexValLoop, h2]
  rfl

theorem digit_not_jsSpace (u : ℕ) (h : isDigitCU u = true) : isJsSpace u = false := by
  simp only [isDigitCU, Bool.and_eq_true, decide_eq_true_eq] at h
  simp only [isJsSpace, Bool.or_eq_false_iff, Bool.and_eq_false_iff,
    decide_eq_false_iff_not, beq_eq_false_iff_ne, ne_eq]
  omega

theorem takeWhile_run_append (p : ℕ → Bool) (ds : List ℕ) (k : ℕ) (rest : List ℕ)
    (hds : ∀ u ∈ ds, p u = true) (hk : p k = false) :
    (ds ++ k :: rest).takeWhile p = ds ∧ (ds ++ k :: rest).dropWhile p = k :: rest := by
  induction ds with
  | nil => simp [List.takeWhile_cons, List.dropWhile_cons, hk]
  | cons a t ih =>
    have ha : p a = true := hds a (by simp)
    have ih' := ih (fun u hu => hds u (by simp [hu]))
    simp [List.takeWhile_cons, List.dropWhile_cons, ha, ih'.1, ih'.2]

theorem eatNum_digits (ds : List ℕ) (k : ℕ) (rest : List ℕ) (hne : ds ≠ [])
    (hds : ∀ u ∈ ds, isDigitCU u = true) (hk : isDigitCU k = false) :
    eatNum (ds ++ k :: rest) = some (decVal ds, k :: rest) := by
  obtain ⟨a, t, rfl⟩ := List.exists_cons_of_ne_nil hne
  have ha : isDigitCU a = true := hds a (by simp)
  have htw := takeWhile_run_append isDigitCU (a :: t) k rest hds hk
  rw [List.cons_append] at htw
  have hws : List.dropWhile isJsSpace (a :: (t ++ k :: rest)) = a :: (t ++ k :: rest) := by
    rw [List.dropWhile_cons, digit_not_jsSpace a ha]
    simp
  simp only [eatNum, eatWs, List.cons_append, hws, htw.1, htw.2]
  simp

theorem eatComma_comma (rest : List ℕ) : eatComma ((',').toNat :: rest) = some rest := rfl

theorem matchRgbAt_canonical (ds1 ds2 ds3 tail : List ℕ)
    (h1 : ds1 ≠ []) (hd1 : ∀ u ∈ ds1, isDigitCU u = true)
    (h2 : ds2 ≠ []) (hd2 : ∀ u ∈ ds2, isDigitCU u = true)
    (h3 : ds3 ≠ []) (hd3 : ∀ u ∈ ds3, isDigitCU u = true) :
    matchRgbAt (('r').toNat :: ('g').toNat :: ('b').toNat :: ('(').toNat ::
        (ds1 ++ (',').toNat :: (ds2 ++ (',').toNat :: (ds3 ++ (')').toNat :: tail)))) =
      some (decVal ds1, decVal ds2, decVal ds3) := by
  simp only [matchRgbAt]
  rw [eatNum_digits ds1 ((',').toNat) _ h1 hd1 (by decide)]
  dsimp only
  rw [eatComma_comma]
  dsimp only
  rw [eatNum_digits ds2 ((',').toNat) _ h2 hd2 (by decide)]
  dsimp only
  rw [eatComma_comma]
  dsimp only
  rw [eatNum_digits ds3 ((')').toNat) _ h3 hd3 (by decide)]
  dsimp only
  rfl

theorem findRgb_head (us : List ℕ) (v : ℕ × ℕ × ℕ) (h : matchRgbAt us = some v) :
    findRgb us = some v := by
  cases us with
  | nil => exact absurd h (by simp [matchRgbAt])
  | cons a rest =>
    unfold findRgb
    rw [h]

theorem parseColorChars_ne_hash (us : List ℕ) (hh : us.head? ≠ some (('#').toNat)) :
    parseColorChars us = restPipeline us := by
  unfold parseColorChars
  split
  · rw [if_neg]
    intro he
    subst he
    simp at hh
  · rw [if_neg]
    intro he
    subst he
    simp at hh
  · rfl

theorem alphaRun_not_jsSpace (u : ℕ) (h : isAlphaRunChar u = true) : isJsSpace u = false := by
  simp only [isAlphaRunChar, isDigitCU, Bool.or_eq_true, Bool.and_eq_true,
    decide_eq_true_eq, beq_iff_eq] at h
  rw [show ('.').toNat = 46 from rfl] at h
  simp only [isJsSpace, Bool.or_eq_false_iff, Bool.and_eq_false_iff,
    decide_eq_false_iff_not, beq_eq_false_iff_ne, ne_eq]
  omega

theorem matchRgbaAt_canonical (ds1 ds2 ds3 as tail : List ℕ)
    (h1 : ds1 ≠ []) (hd1 : ∀ u ∈ ds1, isDigitCU u = true)
    (h2 : ds2 ≠ []) (hd2 : ∀ u ∈ ds2, isDigitCU u = true)
    (h3 : ds3 ≠ []) (hd3 : ∀ u ∈ ds3, isDigitCU u = true)
    (ha : as ≠ []) (hda : ∀ u ∈ as, isAlphaRunChar u = true) :
    matchRgbaAt (('r').toNat :: ('g').toNat :: ('b').toNat :: ('a').toNat :: ('(').toNat ::
        (ds1 ++ (',').toNat :: (ds2 ++ (',').toNat ::
          (ds3 ++ (',').toNat :: (as ++ (')').toNat :: tail))))) =
      some (decVal ds1, decVal ds2, decVal ds3) := by
  obtain ⟨a0, t0, rfl⟩ := List.exists_cons_of_ne_nil ha
  have ha0 : isAlphaRunChar a0 = true := hda a0 (by simp)
  have htw := takeWhile_run_append isAlphaRunChar (a0 :: t0) ((')').toNat) tail hda (by decide)
  rw [List.cons_append] at htw
  have hws : List.dropWhile isJsSpace (a0 :: (t0 ++ (')').toNat :: tail)) =
      a0 :: (t0 ++ (')').toNat :: tail) := by
    rw [List.dropWhile_cons, alphaRun_not_jsSpace a0 ha0]
    simp
  simp only [matchRgbaAt]
  rw [eatNum_digits ds1 ((',').toNat) _ h1 hd1 (by decide)]
  dsimp only
  rw [eatComma_comma]
  dsimp only
  rw [eatNum_digits ds2 ((',').toNat) _ h2 hd2 (by decide)]
  dsimp only
  rw [eatComma_comma]
  dsimp only
  rw [eatNum_digits ds3 ((',').toNat) _ h3 hd3 (by decide)]
  dsimp only
  rw [eatComma_comma]
  dsimp only
  simp only [eatWs, List.cons_append, hws, htw.1, htw.2]
  rw [List.dropWhile_cons]
  rfl

theorem findRgba_head (us : List ℕ) (v : ℕ × ℕ × ℕ) (h : matchRgbaAt us = some v) :
    findRgba us = some v := by
  cases us with
  | nil => exact absurd h (by simp [matchRgbaAt])
  | cons a rest =>
    unfold findRgba
    rw [h]

theorem matchRgbAt_no_r (us : List ℕ) (h : us.head? ≠ some (('r').toNat)) :
    matchRgbAt us = none := by
  match us with
  | [] => rfl
  | [a] => rfl
  | [a, b] => rfl
  | [a, b, d] => rfl
  | a :: b :: d :: e :: rest =>
    simp only [matchRgbAt]
    rw [if_neg]
    rintro ⟨h1, -⟩
    exact h (by simp [h1])

theorem findRgb_no_r (us : List ℕ) (h : ∀ u ∈ us, u ≠ ('r').toNat) : findRgb us = none := by
  induction us with
  | nil => rfl
  | cons a rest ih =>
    unfold findRgb
    rw [matchRgbAt_no_r (a :: rest) (by simp; exact fun he => h a (by simp) he)]
    exact ih (fun u hu => h u (by simp [hu]))

theorem hexComp_eq (u1 u2 : ℕ) (d1 d2 : ℕ)
    (h1 : hexDigitVal? u1 = some d1) (h2 : hexDigitVal? u2 = some d2) :
    hexComp u1 u2 = some (((d1 * 16 + d2 : ℕ) : ℚ) / 255) := by
  unfold hexComp
  rw [jsParseIntHex_pair u1 u2 d1 d2 h1 h2]
  simp

theorem parseColorChars_hex3 (u1 u2 u3 : ℕ) (d1 d2 d3 : ℕ)
    (h1 : hexDigitVal? u1 = some d1) (h2 : hexDigitVal? u2 = some d2)
    (h3 : hexDigitVal? u3 = some d3) :
    parseColorChars [('#').toNat, u1, u2, u3] =
      .rgb (some (((d1 * 16 + d1 : ℕ) : ℚ) / 255)) (some (((d2 * 16 + d2 : ℕ) : ℚ) / 255))
        (some (((d3 * 16 + d3 : ℕ) : ℚ) / 255)) := by
  have h0 : parseColorChars [('#').toNat, u1, u2, u3] =
      .rgb (hexComp u1 u1) (hexComp u2 u2) (hexComp u3 u3) := rfl
  rw [h0, hexComp_eq u1 u1 d1 d1 h1 h1, hexComp_eq u2 u2 d2 d2 h2 h2,
    hexComp_eq u3 u3 d3 d3 h3 h3]

theorem parseColorChars_hex6 (u1 u2 u3 u4 u5 u6 : ℕ) (d1 d2 d3 d4 d5 d6 : ℕ)
    (h1 : hexDigitVal? u1 = some d1) (h2 : hexDigitVal? u2 = some d2)
    (h3 : hexDigitVal? u3 = some d3) (h4 : hexDigitVal? u4 = some d4)
    (h5 : hexDigitVal? u5 = some d5) (h6 : hexDigitVal? u6 = some d6) :
    parseColorChars [('#').toNat, u1, u2, u3, u4, u5, u6] =
      .rgb (some (((d1 * 16 + d2 : ℕ) : ℚ) / 255)) (some (((d3 * 16 + d4 : ℕ) : ℚ) / 255))
        (some (((d5 * 16 + d6 : ℕ) : ℚ) / 255)) := by
  have h0 : parseColorChars [('#').toNat, u1, u2, u3, u4, u5, u6] =
      .rgb (hexComp u1 u2) (hexComp u3 u4) (hexComp u5 u6) := rfl
  rw [h0, hexComp_eq u1 u2 d1 d2 h1 h2, hexComp_eq u3 u4 d3 d4 h3 h4,
    hexComp_eq u5 u6 d5 d6 h5 h6]

theorem parseColorChars_rgb (ds1 ds2 ds3 : List ℕ)
    (h1 : ds1 ≠ []) (hd1 : ∀ u ∈ ds1, isDigitCU u = true)
    (h2 : ds2 ≠ []) (hd2 : ∀ u ∈ ds2, isDigitCU u = true)
    (h3 : ds3 ≠ []) (hd3 : ∀ u ∈ ds3, isDigitCU u = true) :
    parseColorChars (('r').toNat :: ('g').toNat :: ('b').toNat :: ('(').toNat ::
        (ds1 ++ (',').toNat :: (ds2 ++ (',').toNat :: (ds3 ++ [(')').toNat])))) =
      .rgb (some ((decVal ds1 : ℚ) / 255)) (some ((decVal ds2 : ℚ) / 255))
        (some ((decVal ds3 : ℚ) / 255)) := by
  rw [parseColorChars_ne_hash _ (by simp)]
  unfold restPipeline
  have hm := matchRgbAt_canonical ds1 ds2 ds3 [] h1 hd1 h2 hd2 h3 hd3
  rw [findRgb_head _ _ (by simpa using hm)]

theorem digit_ne_r (u : ℕ) (h : isDigitCU u = true) : u ≠ ('r').toNat := by
  simp only [isDigitCU, Bool.and_eq_true, decide_eq_true_eq] at h
  rw [show ('r').toNat = 114 from rfl]
  omega

theorem alphaRun_ne_r (u : ℕ) (h : isAlphaRunChar u = true) : u ≠ ('r').toNat := by
  simp only [isAlphaRunChar, isDigitCU, Bool.or_eq_true, Bool.and_eq_true,
    decide_eq_true_eq, beq_iff_eq] at h
  rw [show ('.').toNat = 46 from rfl] at h
  rw [show ('r').toNat = 114 from rfl]
  omega

theorem parseColorChars_rgba (ds1 ds2 ds3 as : List ℕ)
    (h1 : ds1 ≠ []) (hd1 : ∀ u ∈ ds1, isDigitCU u = true)
    (h2 : ds2 ≠ []) (hd2 : ∀ u ∈ ds2, isDigitCU u = true)
    (h3 : ds3 ≠ []) (hd3 : ∀ u ∈ ds3, isDigitCU u = true)
    (ha : as ≠ []) (hda : ∀ u ∈ as, isAlphaRunChar u = true) :
    parseColorChars (('r').toNat :: ('g').toNat :: ('b').toNat :: ('a').toNat :: ('(').toNat ::
        (ds1 ++ (',').toNat :: (ds2 ++ (',').toNat ::
          (ds3 ++ (',').toNat :: (as ++ [(')').toNat]))))) =
      .rgb (some ((decVal ds1 : ℚ) / 255)) (some ((decVal ds2 : ℚ) / 255))
        (some ((decVal ds3 : ℚ) / 255)) := by
  rw [parseColorChars_ne_hash _ (by simp)]
  unfold restPipeline
  have hnone : findRgb (('r').toNat :: ('g').toNat :: ('b').toNat :: ('a').toNat :: ('(').toNat ::
      (ds1 ++ (',').toNat :: (ds2 ++ (',').toNat ::
        (ds3 ++ (',').toNat :: (as ++ [(')').toNat]))))) = none := by
    unfold findRgb
    rw [matchRgbAt]
    rw [if_neg (by rintro ⟨-, -, -, h4⟩; exact absurd h4 (by decide))]
    have hmem : ∀ u ∈ (('g').toNat :: ('b').toNat :: ('a').toNat :: ('(').toNat ::
        (ds1 ++ (',').toNat :: (ds2 ++ (',').toNat ::
          (ds3 ++ (',').toNat :: (as ++ [(')').toNat]))))), u ≠ ('r').toNat := by
      intro u hu
      simp only [List.mem_cons, List.mem_append] at hu
      rcases hu with rfl | rfl | rfl | rfl | hu
      · decide
      · decide
      · decide
      · decide
      rcases hu with hu | hu
      · exact digit_ne_r u (hd1 u hu)
      rcases hu with rfl | hu
      · decide
      rcases hu with hu | hu
      · exact digit_ne_r u (hd2 u hu)
      rcases hu with rfl | hu
      · decide
      rcases hu with hu | hu
      · exact digit_ne_r u (hd3 u hu)
      rcases hu with rfl | hu
      · decide
      rcases hu with hu | hu
      · exact alphaRun_ne_r u (hda u hu)
      rcases hu with rfl | hu
      · decide
      · exact absurd hu (by simp)
    exact findRgb_no_r _ hmem
  rw [hnone]
  have hm := matchRgbaAt_canonical ds1 ds2 ds3 as [] h1 hd1 h2 hd2 h3 hd3 ha hda
  rw [findRgba_head _ _ (by simpa using hm)]

theorem parseColorChars_default_white (us : List ℕ)
    (hascii : ∀ u ∈ us, u ≤ 127)
    (hh : us.head? = some (('#').toNat) → us.length ≠ 4 ∧ us.length ≠ 7)
    (hrgb : findRgb us = none) (hrgba : findRgba us = none)
    (hname : colorNames.find? (fun p => p.1 == us.map jsToLower) = none)
    (hproto : protoMemberNames.contains (us.map jsToLower) = false) :
    parseColorChars us = .rgb (some 1) (some 1) (some 1) := by
  have hrp : restPipeline us = .rgb (some 1) (some 1) (some 1) := by
    simp only [restPipeline]
    rw [hrgb, hrgba, hname, hproto]
    simp
  unfold parseColorChars
  split
  · rename_i a u1 u2 u3
    by_cases hA : a = ('#').toNat
    · subst hA
      exact absurd rfl (hh (by simp)).1
    · rw [if_neg hA]
      exact hrp
  · rename_i a u1 u2 u3 u4 u5 u6
    by_cases hA : a = ('#').toNat
    · subst hA
      exact absurd rfl (hh (by simp)).2
    · rw [if_neg hA]
      exact hrp
  · exact hrp

end ColorParse

/-- Auxiliary: `n / 255` lies in `[0, 1]` exactly for byte values. -/
theorem byte_mem_unit (n : ℕ) (h : n ≤ 255) : 0 ≤ (n : ℚ) / 255 ∧ (n : ℚ) / 255 ≤ 1 := by
  constructor
  · positivity
  · rw [div_le_one (by norm_num)]
    exact_mod_cast h

/-- C10 (amended): `parseColor` is total; an ASCII string matching
none of the recognized formats — and whose lowercasing is neither a
table key nor one of the all-lowercase `Object.prototype` member
names — yields white `[1, 1, 1]`; `#`-prefixed strings whose
remainder has UTF-16 length 3 or 6 with all digits valid parse
exactly, with every component in `[0, 1]`; canonical `rgb(r, g, b)`
and `rgba(r, g, b, a)` strings parse each captured integer to
`value / 255` exactly — in `[0, 1]` only when the integer is at most
255; the ten color names parse to their exact table values; and the
prototype-chain lookup makes `"constructor"` / `"__proto__"` (any
casing) return the inherited truthy `Object.prototype` member instead
of an RGB triple, while mixed-case member names like `"toString"` are
unreachable because the key is lowercased first.  (The original
claim's unconditional range bound and white default fail, see the
counterexample.) -/
theorem parseColor_amended :
    (∀ us : List ℕ,
      (∀ u ∈ us, u ≤ 127) →
      (us.head? = some (('#').toNat) → us.length ≠ 4 ∧ us.length ≠ 7) →
      ColorParse.findRgb us = none → ColorParse.findRgba us = none →
      ColorParse.colorNames.find? (fun p => p.1 == us.map ColorParse.jsToLower) = none →
      ColorParse.protoMemberNames.contains (us.map ColorParse.jsToLower) = false →
      ColorParse.parseColorChars us =
        ColorParse.JsColorValue.rgb (some 1) (some 1) (some 1)) ∧
    (∀ (u1 u2 u3 : ℕ) (d1 d2 d3 : ℕ),
      ColorParse.hexDigitVal? u1 = some d1 → ColorParse.hexDigitVal? u2 = some d2 →
      ColorParse.hexDigitVal? u3 = some d3 →
      ColorParse.parseColorChars [('#').toNat, u1, u2, u3] =
        ColorParse.JsColorValue.rgb (some (((d1 * 16 + d1 : ℕ) : ℚ) / 255))
          (some (((d2 * 16 + d2 : ℕ) : ℚ) / 255)) (some (((d3 * 16 + d3 : ℕ) : ℚ) / 255)) ∧
      (0 ≤ ((d1 * 16 + d1 : ℕ) : ℚ) / 255 ∧ ((d1 * 16 + d1 : ℕ) : ℚ) / 255 ≤ 1) ∧
      (0 ≤ ((d2 * 16 + d2 : ℕ) : ℚ) / 255 ∧ ((d2 * 16 + d2 : ℕ) : ℚ) / 255 ≤ 1) ∧
      (0 ≤ ((d3 * 16 + d3 : ℕ) : ℚ) / 255 ∧ ((d3 * 16 + d3 : ℕ) : ℚ) / 255 ≤ 1)) ∧
    (∀ (u1 u2 u3 u4 u5 u6 : ℕ) (d1 d2 d3 d4 d5 d6 : ℕ),
      ColorParse.hexDigitVal? u1 = some d1 → ColorParse.hexDigitVal? u2 = some d2 →
      ColorParse.hexDigitVal? u3 = some d3 → ColorParse.hexDigitVal? u4 = some d4 →
      ColorParse.hexDigitVal? u5 = some d5 → ColorParse.hexDigitVal? u6 = some d6 →
      ColorParse.parseColorChars [('#').toNat, u1, u2, u3, u4, u5, u6] =
        ColorParse.JsColorValue.rgb (some (((d1 * 16 + d2 : ℕ) : ℚ) / 255))
          (some (((d3 * 16 + d4 : ℕ) : ℚ) / 255)) (some (((d5 * 16 + d6 : ℕ) : ℚ) / 255)) ∧
      (0 ≤ ((d1 * 16 + d2 : ℕ) : ℚ) / 255 ∧ ((d1 * 16 + d2 : ℕ) : ℚ) / 255 ≤ 1)) ∧
    (∀ ds1 ds2 ds3 : List ℕ,
      ds1 ≠ [] → (∀ u ∈ ds1, ColorParse.isDigitCU u = true) →
      ds2 ≠ [] → (∀ u ∈ ds2, ColorParse.isDigitCU u = true) →
      ds3 ≠ [] → (∀ u ∈ ds3, ColorParse.isDigitCU u = true) →
      ColorParse.parseColorChars (('r').toNat :: ('g').toNat :: ('b').toNat :: ('(').toNat ::
          (ds1 ++ (',').toNat :: (ds2 ++ (',').toNat :: (ds3 ++ [(')').toNat])))) =
        ColorParse.JsColorValue.rgb (some ((ColorParse.decVal ds1 : ℚ) / 255))
          (some ((ColorParse.decVal ds2 : ℚ) / 255))
          (some ((ColorParse.decVal ds3 : ℚ) / 255)) ∧
      (ColorParse.decVal ds1 ≤ 255 →
        0 ≤ (ColorParse.decVal ds1 : ℚ) / 255 ∧ (ColorParse.decVal ds1 : ℚ) / 255 ≤ 1)) ∧
    (∀ ds1 ds2 ds3 as : List ℕ,
      ds1 ≠ [] → (∀ u ∈ ds1, ColorParse.isDigitCU u = true) →
      ds2 ≠ [] → (∀ u ∈ ds2, ColorParse.isDigitCU u = true) →
      ds3 ≠ [] → (∀ u ∈ ds3, ColorParse.isDigitCU u = true) →
      as ≠ [] → (∀ u ∈ as, ColorParse.isAlphaRunChar u = true) →
      ColorParse.parseColorChars (('r').toNat :: ('g').toNat :: ('b').toNat :: ('a').toNat ::
          ('(').toNat :: (ds1 ++ (',').toNat :: (ds2 ++ (',').toNat ::
            (ds3 ++ (',').toNat :: (as ++ [(')').toNat]))))) =
        ColorParse.JsColorValue.rgb (some ((ColorParse.decVal ds1 : ℚ) / 255))
          (some ((ColorParse.decVal ds2 : ℚ) / 255))
          (some ((ColorParse.decVal ds3 : ℚ) / 255))) ∧
    (parseColor ("constructor") =
        ColorParse.JsColorValue.protoMember (ColorParse.utf16Units ("constructor")) ∧
      parseColor ("Constructor") =
        ColorParse.JsColorValue.protoMember (ColorParse.utf16Units ("constructor")) ∧
      parseColor ("__proto__") =
        ColorParse.JsColorValue.protoMember (ColorParse.utf16Units ("__proto__")) ∧
      parseColor ("toString") =
        ColorParse.JsColorValue.rgb (some 1) (some 1) (some 1)) ∧
    (parseColor ("white") = ColorParse.JsColorValue.rgb (some 1) (some 1) (some 1) ∧
      parseColor ("black") = ColorParse.JsColorValue.rgb (some 0) (some 0) (some 0) ∧
      parseColor ("red") = ColorParse.JsColorValue.rgb (some 1) (some 0) (some 0) ∧
      parseColor ("green") = ColorParse.JsColorValue.rgb (some 0) (some 1) (some 0) ∧
      parseColor ("blue") = ColorParse.JsColorValue.rgb (some 0) (some 0) (some 1) ∧
      parseColor ("yellow") = ColorParse.JsColorValue.rgb (some 1) (some 1) (some 0) ∧
      parseColor ("cyan") = ColorParse.JsColorValue.rgb (some 0) (some 1) (some 1) ∧
      parseColor ("magenta") = ColorParse.JsColorValue.rgb (some 1) (some 0) (some 1) ∧
      parseColor ("gray") =
        ColorParse.JsColorValue.rgb (some (1/2)) (some (1/2)) (some (1/2)) ∧
      parseColor ("grey") =
        ColorParse.JsColorValue.rgb (some (1/2)) (some (1/2)) (some (1/2))) := by
  refine ⟨ColorParse.parseColorChars_default_white, ?_, ?_, ?_, ?_, ?_, ?_⟩
  · intro u1 u2 u3 d1 d2 d3 h1 h2 h3
    obtain ⟨hb1, -⟩ := ColorParse.hexDigitVal_facts u1 d1 h1
    obtain ⟨hb2, -⟩ := ColorParse.hexDigitVal_facts u2 d2 h2
    obtain ⟨hb3, -⟩ := ColorParse.hexDigitVal_facts u3 d3 h3
    exact ⟨ColorParse.parseColorChars_hex3 u1 u2 u3 d1 d2 d3 h1 h2 h3,
      byte_mem_unit _ (by omega), byte_mem_unit _ (by omega), byte_mem_unit _ (by omega)⟩
  · intro u1 u2 u3 u4 u5 u6 d1 d2 d3 d4 d5 d6 h1 h2 h3 h4 h5 h6
    obtain ⟨hb1, -⟩ := ColorParse.hexDigitVal_facts u1 d1 h1
    obtain ⟨hb2, -⟩ := ColorParse.hexDigitVal_facts u2 d2 h2
    exact ⟨ColorParse.parseColorChars_hex6 u1 u2 u3 u4 u5 u6 d1 d2 d3 d4 d5 d6
      h1 h2 h3 h4 h5 h6, byte_mem_unit _ (by omega)⟩
  · intro ds1 ds2 ds3 h1 hd1 h2 hd2 h3 hd3
    exact ⟨ColorParse.parseColorChars_rgb ds1 ds2 ds3 h1 hd1 h2 hd2 h3 hd3,
      fun hle => byte_mem_unit _ hle⟩
  · intro ds1 ds2 ds3 as h1 hd1 h2 hd2 h3 hd3 ha hda
    exact ColorParse.parseColorChars_rgba ds1 ds2 ds3 as h1 hd1 h2 hd2 h3 hd3 ha hda
  · exact ⟨by decide, by decide, by decide, by decide⟩
  · exact ⟨rfl, rfl, rfl, rfl, rfl, rfl, rfl, rfl, rfl, rfl⟩

/-- Witness for `parseColor_amended` at concrete inputs. -/
theorem parseColor_amended_witness :
    ColorParse.parseColorChars (ColorParse.utf16Units ("not-a-color")) =
      ColorParse.JsColorValue.rgb (some 1) (some 1) (some 1) ∧
    ColorParse.parseColorChars [('#').toNat, ('f').toNat, ('0').toNat, ('a').toNat] =
      ColorParse.JsColorValue.rgb (some (((15 * 16 + 15 : ℕ) : ℚ) / 255))
        (some (((0 * 16 + 0 : ℕ) : ℚ) / 255)) (some (((10 * 16 + 10 : ℕ) : ℚ) / 255)) ∧
    ColorParse.parseColorChars [('#').toNat, ('1').toNat, ('2').toNat, ('a').toNat,
        ('b').toNat, ('E').toNat, ('F').toNat] =
      ColorParse.JsColorValue.rgb (some (((1 * 16 + 2 : ℕ) : ℚ) / 255))
        (some (((10 * 16 + 11 : ℕ) : ℚ) / 255)) (some (((14 * 16 + 15 : ℕ) : ℚ) / 255)) ∧
    ColorParse.parseColorChars (('r').toNat :: ('g').toNat :: ('b').toNat :: ('(').toNat ::
        ([('2').toNat, ('5').toNat, ('5').toNat] ++ (',').toNat ::
          ([('1').toNat] ++ (',').toNat :: ([('0').toNat] ++ [(')').toNat])))) =
      ColorParse.JsColorValue.rgb
        (some ((ColorParse.decVal [('2').toNat, ('5').toNat, ('5').toNat] : ℚ) / 255))
        (some ((ColorParse.decVal [('1').toNat] : ℚ) / 255))
        (some ((ColorParse.decVal [('0').toNat] : ℚ) / 255)) ∧
    ColorParse.parseColorChars (('r').toNat :: ('g').toNat :: ('b').toNat :: ('a').toNat ::
        ('(').toNat :: ([('1').toNat] ++ (',').toNat :: ([('2').toNat] ++ (',').toNat ::
          ([('3').toNat] ++ (',').toNat ::
            ([('0').toNat, ('.').toNat, ('5').toNat] ++ [(')').toNat]))))) =
      ColorParse.JsColorValue.rgb (some ((ColorParse.decVal [('1').toNat] : ℚ) / 255))
        (some ((ColorParse.decVal [('2').toNat] : ℚ) / 255))
        (some ((ColorParse.decVal [('3').toNat] : ℚ) / 255)) ∧
    parseColor ("red") = ColorParse.JsColorValue.rgb (some 1) (some 0) (some 0) :=
  ⟨parseColor_amended.1 (ColorParse.utf16Units ("not-a-color")) (by decide) (by decide)
      (by decide) (by decide) (by decide) (by decide),
    (parseColor_amended.2.1 (('f').toNat) (('0').toNat) (('a').toNat) 15 0 10
      (by decide) (by decide) (by decide)).1,
    (parseColor_amended.2.2.1 (('1').toNat) (('2').toNat) (('a').toNat) (('b').toNat)
      (('E').toNat) (('F').toNat) 1 2 10 11 14 15
      (by decide) (by decide) (by decide) (by decide) (by decide) (by decide)).1,
    (parseColor_amended.2.2.2.1 [('2').toNat, ('5').toNat, ('5').toNat] [('1').toNat]
      [('0').toNat] (by decide) (by decide) (by decide) (by decide) (by decide) (by decide)).1,
    parseColor_amended.2.2.2.2.1 [('1').toNat] [('2').toNat] [('3').toNat]
      [('0').toNat, ('.').toNat, ('5').toNat] (by decide) (by decide) (by decide) (by decide)
      (by decide) (by decide) (by decide) (by decide),
    parseColor_amended.2.2.2.2.2.2.2.2.1⟩

/-- C10 counterexample: `parseColor` does not return an in-range RGB
triple for every input.  On `"#zzz"` every component is NaN
(`parseInt("zz", 16)` is NaN); on `"rgb(999, 0, 0)"` the red
component is `999 / 255 > 1`; on `"__proto__"` the prototype-chain
lookup returns the inherited `Object.prototype` member — not an RGB
triple, and not white; and `"#a𝄞"` (4 UTF-16 units) takes the
3-digit hex branch, yielding one parsed component and two NaNs
rather than the white default. -/
theorem parseColor_unbounded_counterexample :
    parseColor ("#zzz") = ColorParse.JsColorValue.rgb none none none ∧
    parseColor ("rgb(999, 0, 0)") =
      ColorParse.JsColorValue.rgb (some ((999 : ℚ) / 255)) (some 0) (some 0) ∧
    (1 : ℚ) < 999 / 255 ∧
    parseColor ("__proto__") =
      ColorParse.JsColorValue.protoMember (ColorParse.utf16Units ("__proto__")) ∧
    parseColor ("#a𝄞") =
      ColorParse.JsColorValue.rgb (some (((10 * 16 + 10 : ℕ) : ℚ) / 255)) none none := by
  refine ⟨by decide, ?_, by norm_num, by decide, ?_⟩
  · have h : ColorParse.findRgb (ColorParse.utf16Units ("rgb(999, 0, 0)")) =
        some (999, 0, 0) := by decide
    have h2 : parseColor ("rgb(999, 0, 0)") =
        ColorParse.restPipeline (ColorParse.utf16Units ("rgb(999, 0, 0)")) := rfl
    rw [h2]
    unfold ColorParse.restPipeline
    rw [h]
    norm_num
  · have h1 : parseColor ("#a𝄞") =
        ColorParse.JsColorValue.rgb (ColorParse.hexComp 97 97) (ColorParse.hexComp 55348 55348)
          (ColorParse.hexComp 56606 56606) := rfl
    rw [h1, ColorParse.hexComp_eq 97 97 10 10 (by decide) (by decide),
      (by decide : ColorParse.hexComp 55348 55348 = none),
      (by decide : ColorParse.hexComp 56606 56606 = none)]
